import Mathlib

/-!
# AtomicsCore: single-thread semantics of the atomic cell family

A shallow embedding of `Sources/AtomicsCore/include/Atomics.h` and
`Sources/AtomicsCore/include/AtomicValue.h`.

The headers are thin wrappers around the C11 `<stdatomic.h>` generic functions.
The embedding has two layers:

* the C11 generic functions (`atomic_init`, `atomic_store_explicit`, ...), read
  on one thread: an atomic object is a memory location holding one value, an
  operation on it is one indivisible step, and the `memory_order` argument
  constrains only what other threads may observe, so it is carried along and does
  not enter the value computed;
* the functions the headers generate (`sa_<kind>_store`, `sa_ref_exchange`, ...),
  transcribed one for one on top of the first layer.

Where the value computed does not show what a claim is about, a finer reading of the
same functions is given next to the first: the builtin call a function makes, with
the memory order it passes (`C11Call`), and the way a call of `create` ends when it
does not return (`Failure`).

Memory is explicit: a handle is an address, the address `0` is the null pointer,
and an operation through an address that holds no atomic object has no defined
result (`none`).
-/

set_option linter.unusedVariables false

namespace AtomicsCore

/-! ## Platform -/

/-- The C data model of the target. It fixes the two widths the headers leave to
the platform: `long` (cells `Int`/`UInt`) and pointers (the generic cell). -/
inductive DataModel where
  | ILP32
  | LLP64
  | LP64
  deriving DecidableEq, Repr

/-- Width of `long` and `unsigned long` in bits. -/
def DataModel.longBits : DataModel → Nat
  | .ILP32 => 32
  | .LLP64 => 32
  | .LP64 => 64

/-- Width of `void*` and `uintptr_t` in bits. -/
def DataModel.pointerBits : DataModel → Nat
  | .ILP32 => 32
  | .LLP64 => 64
  | .LP64 => 64

/-! ## Memory orders (Atomics.h 33-43) -/

/-- The `memory_order` enumerators of `<stdatomic.h>`, by their integer values.
The value `5` of `memory_order_seq_cst` is the one the expanded form at the end of
Atomics.h shows. -/
def memory_order_relaxed : Int := 0

/-- See `memory_order_relaxed`. -/
def memory_order_consume : Int := 1

/-- See `memory_order_relaxed`. -/
def memory_order_acquire : Int := 2

/-- See `memory_order_relaxed`. -/
def memory_order_release : Int := 3

/-- See `memory_order_relaxed`. -/
def memory_order_acq_rel : Int := 4

/-- See `memory_order_relaxed`. -/
def memory_order_seq_cst : Int := 5

/-- The closed enumeration `SAMemoryOrder`. -/
inductive SAMemoryOrder where
  | Relaxed
  | Consume
  | Acquire
  | Release
  | AcquireAndRelease
  | SequentiallyConsistent
  deriving DecidableEq, Repr

/-- The underlying `int` of each `SAMemoryOrder` constant, as the enumeration
defines it. -/
def SAMemoryOrder.rawValue : SAMemoryOrder → Int
  | .Relaxed => memory_order_relaxed
  | .Consume => memory_order_consume
  | .Acquire => memory_order_acquire
  | .Release => memory_order_release
  | .AcquireAndRelease => memory_order_acq_rel
  | .SequentiallyConsistent => memory_order_seq_cst

/-! ## Cell kinds (Atomics.h 144-165) -/

/-- One constructor per instantiation of the cell macros, named by the
`swift_name` argument of the instantiation. -/
inductive Kind where
  | bool
  | int8
  | uint8
  | int16
  | uint16
  | int32
  | uint32
  | int
  | uint
  | int64
  | uint64
  deriving DecidableEq, Repr

/-- Number of value bits of the kind's `raw_type`: `_Bool` has one, `signed char`
eight, `short` sixteen, `int` thirty-two, `long` what the data model says,
`long long` sixty-four. -/
def Kind.bits (k : Kind) (dm : DataModel) : Nat :=
  match k with
  | .bool => 1
  | .int8 => 8
  | .uint8 => 8
  | .int16 => 16
  | .uint16 => 16
  | .int32 => 32
  | .uint32 => 32
  | .int => dm.longBits
  | .uint => dm.longBits
  | .int64 => 64
  | .uint64 => 64

/-- Whether the kind's `raw_type` is a signed integer type. -/
def Kind.isSigned : Kind → Bool
  | .int8 => true
  | .int16 => true
  | .int32 => true
  | .int => true
  | .int64 => true
  | _ => false

/-- A value of the kind's `raw_type`, as its bit pattern. For a signed kind the
pattern is the two's complement representation (see `Val.toInt`). -/
abbrev Val (dm : DataModel) (k : Kind) : Type := Fin (2 ^ k.bits dm)

/-- The integer a bit pattern stands for in the kind's `raw_type`. -/
def Val.toInt {dm : DataModel} {k : Kind} (v : Val dm k) : Int :=
  if k.isSigned = true ∧ 2 ^ (k.bits dm - 1) ≤ v.val then (v.val : Int) - 2 ^ k.bits dm
  else (v.val : Int)

/-- The `raw_type` value `true`/`false` or `1`/`0`. -/
def Val.ofBool (dm : DataModel) (k : Kind) (b : Bool) : Val dm k :=
  ⟨(if b then 1 else 0) % 2 ^ k.bits dm, Nat.mod_lt _ (Nat.two_pow_pos _)⟩

/-- A value of the kind's `raw_type` from a numeral, as C converts it: to `_Bool`
every nonzero numeral becomes `1` (C11 6.3.1.2); to an integer type the numeral is
reduced to the kind's width. -/
def Val.ofNat (dm : DataModel) (k : Kind) (n : Nat) : Val dm k :=
  if k = Kind.bool then Val.ofBool dm k (decide (n ≠ 0))
  else ⟨n % 2 ^ k.bits dm, Nat.mod_lt _ (Nat.two_pow_pos _)⟩

/-! ## Memory -/

/-- Memory holding atomic objects of type `α`: what lives at each address. -/
abbrev Memory (α : Type) : Type := Nat → Option α

/-- Memory with no atomic object in it. -/
def Memory.empty {α : Type} : Memory α := fun _ => none

/-- Memory after the object at address `p` takes the value `v`. -/
def Memory.write {α : Type} (m : Memory α) (p : Nat) (v : α) : Memory α :=
  fun q => if q = p then some v else m q

/-! ## The C11 generic functions, on one thread -/

/-- The generic function `atomic_init(obj, value)`: initialises the object at `obj`. Writing through
the null pointer has no defined result. -/
def atomic_init {α : Type} (m : Memory α) (obj : Nat) (value : α) : Option (Memory α) :=
  if obj = 0 then none else some (m.write obj value)

/-- The library function `free(ptr)`: the storage at `ptr` holds no object afterwards. -/
def free {α : Type} (m : Memory α) (ptr : Nat) : Memory α :=
  fun q => if q = ptr then none else m q

/-- The generic function `atomic_store_explicit(object, desired, order)`. -/
def atomic_store_explicit {α : Type} (m : Memory α) (object : Nat) (desired : α)
    (order : Int) : Option (Memory α) :=
  match m object with
  | none => none
  | some _ => some (m.write object desired)

/-- The generic function `atomic_store(object, desired)`: the explicit form with `memory_order_seq_cst`. -/
def atomic_store {α : Type} (m : Memory α) (object : Nat) (desired : α) : Option (Memory α) :=
  atomic_store_explicit m object desired memory_order_seq_cst

/-- The generic function `atomic_load_explicit(object, order)`: the value read and the memory after. -/
def atomic_load_explicit {α : Type} (m : Memory α) (object : Nat) (order : Int) :
    Option (α × Memory α) :=
  match m object with
  | none => none
  | some c => some (c, m)

/-- The generic function `atomic_load(object)`: the explicit form with `memory_order_seq_cst`. -/
def atomic_load {α : Type} (m : Memory α) (object : Nat) : Option (α × Memory α) :=
  atomic_load_explicit m object memory_order_seq_cst

/-- The generic function `atomic_exchange_explicit(object, desired, order)`: the value held before and
the memory after. -/
def atomic_exchange_explicit {α : Type} (m : Memory α) (object : Nat) (desired : α)
    (order : Int) : Option (α × Memory α) :=
  match m object with
  | none => none
  | some c => some (c, m.write object desired)

/-- The generic function `atomic_exchange(object, desired)`: the explicit form with
`memory_order_seq_cst`. -/
def atomic_exchange {α : Type} (m : Memory α) (object : Nat) (desired : α) :
    Option (α × Memory α) :=
  atomic_exchange_explicit m object desired memory_order_seq_cst

/-- The generic function `atomic_compare_exchange_strong_explicit(object, &expected, desired, success,
failure)`: the boolean result, the value left in `expected` (the object's value
when the comparison fails), and the memory after. -/
def atomic_compare_exchange_strong_explicit {α : Type} [DecidableEq α] (m : Memory α)
    (object : Nat) (expected desired : α) (success failure : Int) :
    Option ((Bool × α) × Memory α) :=
  match m object with
  | none => none
  | some c =>
    if c = expected then some ((true, expected), m.write object desired)
    else some ((false, c), m)

/-- The generic function `atomic_compare_exchange_strong(object, &expected, desired)`: the explicit form
with `memory_order_seq_cst` twice. -/
def atomic_compare_exchange_strong {α : Type} [DecidableEq α] (m : Memory α)
    (object : Nat) (expected desired : α) : Option ((Bool × α) × Memory α) :=
  atomic_compare_exchange_strong_explicit m object expected desired
    memory_order_seq_cst memory_order_seq_cst

/-- The generic function `atomic_compare_exchange_weak_explicit(object, &expected, desired, success,
failure)`. The weak form may fail although the values are equal; `spurious` says
whether this call does. -/
def atomic_compare_exchange_weak_explicit {α : Type} [DecidableEq α] (spurious : Bool)
    (m : Memory α) (object : Nat) (expected desired : α) (success failure : Int) :
    Option ((Bool × α) × Memory α) :=
  match m object with
  | none => none
  | some c =>
    if c = expected ∧ spurious = false then some ((true, expected), m.write object desired)
    else some ((false, c), m)

/-- The generic function `atomic_compare_exchange_weak(object, &expected, desired)`: the explicit form
with `memory_order_seq_cst` twice. -/
def atomic_compare_exchange_weak {α : Type} [DecidableEq α] (spurious : Bool)
    (m : Memory α) (object : Nat) (expected desired : α) : Option ((Bool × α) × Memory α) :=
  atomic_compare_exchange_weak_explicit spurious m object expected desired
    memory_order_seq_cst memory_order_seq_cst

/-! ### Fetch-and-modify

The value a fetch function stores is the result of the operation on the object's
value and the operand, in the object's type. For the integer types C11 7.17.7.5
fixes it: unsigned arithmetic is modular, signed arithmetic is two's complement
with silent wrap-around, so on bit patterns both are arithmetic modulo `2 ^ bits`.
C11 does not provide the arithmetic fetch functions for `atomic_bool`; Atomics.h
instantiates them for it all the same (lines 150-151). There the result is read as
the one C gives `_Bool`: the operation on the promoted operands converted back to
`_Bool`, a nonzero result becoming `1` (C11 6.3.1.2). -/

/-- Value stored by `atomic_fetch_add`. -/
def Val.add {dm : DataModel} {k : Kind} (c x : Val dm k) : Val dm k :=
  if k = Kind.bool then Val.ofBool dm k (decide (c.val + x.val ≠ 0)) else c + x

/-- Value stored by `atomic_fetch_sub`. -/
def Val.sub {dm : DataModel} {k : Kind} (c x : Val dm k) : Val dm k :=
  if k = Kind.bool then Val.ofBool dm k (decide (c.val ≠ x.val)) else c - x

/-- Value stored by `atomic_fetch_or`. -/
def Val.or {dm : DataModel} {k : Kind} (c x : Val dm k) : Val dm k := c ||| x

/-- Value stored by `atomic_fetch_xor`. -/
def Val.xor {dm : DataModel} {k : Kind} (c x : Val dm k) : Val dm k := c ^^^ x

/-- Value stored by `atomic_fetch_and`. -/
def Val.and {dm : DataModel} {k : Kind} (c x : Val dm k) : Val dm k := c &&& x

/-- The `action` argument of `SA_ATOMIC_TYPE_FETCH`. -/
inductive Action where
  | add
  | sub
  | or
  | xor
  | and
  deriving DecidableEq, Repr

/-- The binary operation `atomic_fetch_<action>` applies. -/
def Action.apply {dm : DataModel} {k : Kind} (action : Action) (c x : Val dm k) : Val dm k :=
  match action with
  | .add => Val.add c x
  | .sub => Val.sub c x
  | .or => Val.or c x
  | .xor => Val.xor c x
  | .and => Val.and c x

/-- The generic function `atomic_fetch_<action>_explicit(object, operand, order)`: the value held before
and the memory after. -/
def atomic_fetch_explicit {dm : DataModel} {k : Kind} (action : Action)
    (m : Memory (Val dm k)) (object : Nat) (operand : Val dm k) (order : Int) :
    Option (Val dm k × Memory (Val dm k)) :=
  match m object with
  | none => none
  | some c => some (c, m.write object (action.apply c operand))

/-- The generic function `atomic_fetch_<action>(object, operand)`: the explicit form with
`memory_order_seq_cst`. -/
def atomic_fetch {dm : DataModel} {k : Kind} (action : Action)
    (m : Memory (Val dm k)) (object : Nat) (operand : Val dm k) :
    Option (Val dm k × Memory (Val dm k)) :=
  atomic_fetch_explicit action m object operand memory_order_seq_cst

/-! ## Atomics.h: the scalar cell family

Each definition takes the kind `k` in place of the macro arguments; `ref` is the
handle (`SA<Kind>Ref`), an address. -/

/-- The macro `SA_POINTER_CAST(type, source)`: a cast between pointer types keeps the
address. -/
def SA_POINTER_CAST (source : Nat) : Nat := source

/-- The function `sa_<kind>_create(value)`. `malloc` is what the allocator returns for the
request: the address of the new block, or `0` when it fails. The result is the
handle and the memory after. -/
def sa_create (dm : DataModel) (k : Kind) (m : Memory (Val dm k)) (malloc : Nat)
    (value : Val dm k) : Option (Nat × Memory (Val dm k)) :=
  let result := malloc
  match atomic_init m result value with
  | none => none
  | some m1 => some (SA_POINTER_CAST result, m1)

/-- The function `sa_<kind>_init(ref, value)`. -/
def sa_init (dm : DataModel) (k : Kind) (m : Memory (Val dm k)) (ref : Nat)
    (value : Val dm k) : Option (Memory (Val dm k)) :=
  let result := SA_POINTER_CAST ref
  atomic_init m result value

/-- The function `sa_<kind>_free(ref)`. -/
def sa_free (dm : DataModel) (k : Kind) (m : Memory (Val dm k)) (ref : Nat) :
    Memory (Val dm k) :=
  free m (SA_POINTER_CAST ref)

/-- The function `sa_<kind>_store(ref, value)`. -/
def sa_store (dm : DataModel) (k : Kind) (m : Memory (Val dm k)) (ref : Nat)
    (value : Val dm k) : Option (Memory (Val dm k)) :=
  atomic_store m (SA_POINTER_CAST ref) value

/-- The function `sa_<kind>_store_explicit(ref, value, order)`. -/
def sa_store_explicit (dm : DataModel) (k : Kind) (m : Memory (Val dm k)) (ref : Nat)
    (value : Val dm k) (order : SAMemoryOrder) : Option (Memory (Val dm k)) :=
  atomic_store_explicit m (SA_POINTER_CAST ref) value order.rawValue

/-- The function `sa_<kind>_load(ref)`. -/
def sa_load (dm : DataModel) (k : Kind) (m : Memory (Val dm k)) (ref : Nat) :
    Option (Val dm k × Memory (Val dm k)) :=
  atomic_load m (SA_POINTER_CAST ref)

/-- The function `sa_<kind>_load_explicit(ref, order)`. -/
def sa_load_explicit (dm : DataModel) (k : Kind) (m : Memory (Val dm k)) (ref : Nat)
    (order : SAMemoryOrder) : Option (Val dm k × Memory (Val dm k)) :=
  atomic_load_explicit m (SA_POINTER_CAST ref) order.rawValue

/-- The function `sa_<kind>_exchange(ref, value)`. -/
def sa_exchange (dm : DataModel) (k : Kind) (m : Memory (Val dm k)) (ref : Nat)
    (value : Val dm k) : Option (Val dm k × Memory (Val dm k)) :=
  atomic_exchange m (SA_POINTER_CAST ref) value

/-- The function `sa_<kind>_exchange_explicit(ref, value, order)`. -/
def sa_exchange_explicit (dm : DataModel) (k : Kind) (m : Memory (Val dm k)) (ref : Nat)
    (value : Val dm k) (order : SAMemoryOrder) : Option (Val dm k × Memory (Val dm k)) :=
  atomic_exchange_explicit m (SA_POINTER_CAST ref) value order.rawValue

/-- The function `sa_<kind>_compare_strong(ref, expected, desired)`. The local copy `value` of
`expected` is what the generic function may overwrite; only the boolean is
returned. -/
def sa_compare_strong (dm : DataModel) (k : Kind) (m : Memory (Val dm k)) (ref : Nat)
    (expected desired : Val dm k) : Option (Bool × Memory (Val dm k)) :=
  let value := expected
  match atomic_compare_exchange_strong m (SA_POINTER_CAST ref) value desired with
  | none => none
  | some (r, m1) => some (r.1, m1)

/-- The function `sa_<kind>_compare_strong_explicit(ref, expected, desired, success, fail)`. -/
def sa_compare_strong_explicit (dm : DataModel) (k : Kind) (m : Memory (Val dm k))
    (ref : Nat) (expected desired : Val dm k) (success fail : SAMemoryOrder) :
    Option (Bool × Memory (Val dm k)) :=
  let value := expected
  match atomic_compare_exchange_strong_explicit m (SA_POINTER_CAST ref) value desired
      success.rawValue fail.rawValue with
  | none => none
  | some (r, m1) => some (r.1, m1)

/-- The function `sa_<kind>_compare_weak(ref, expected, desired)`. -/
def sa_compare_weak (dm : DataModel) (k : Kind) (spurious : Bool) (m : Memory (Val dm k))
    (ref : Nat) (expected desired : Val dm k) : Option (Bool × Memory (Val dm k)) :=
  let value := expected
  match atomic_compare_exchange_weak spurious m (SA_POINTER_CAST ref) value desired with
  | none => none
  | some (r, m1) => some (r.1, m1)

/-- The function `sa_<kind>_compare_weak_explicit(ref, expected, desired, success, fail)`. -/
def sa_compare_weak_explicit (dm : DataModel) (k : Kind) (spurious : Bool)
    (m : Memory (Val dm k)) (ref : Nat) (expected desired : Val dm k)
    (success fail : SAMemoryOrder) : Option (Bool × Memory (Val dm k)) :=
  let value := expected
  match atomic_compare_exchange_weak_explicit spurious m (SA_POINTER_CAST ref) value desired
      success.rawValue fail.rawValue with
  | none => none
  | some (r, m1) => some (r.1, m1)

/-- The function `sa_<kind>_<action>(ref, value)`. -/
def sa_fetch (dm : DataModel) (k : Kind) (action : Action) (m : Memory (Val dm k))
    (ref : Nat) (value : Val dm k) : Option (Val dm k × Memory (Val dm k)) :=
  atomic_fetch action m (SA_POINTER_CAST ref) value

/-- The function `sa_<kind>_<action>_explicit(ref, value, order)`. -/
def sa_fetch_explicit (dm : DataModel) (k : Kind) (action : Action) (m : Memory (Val dm k))
    (ref : Nat) (value : Val dm k) (order : SAMemoryOrder) :
    Option (Val dm k × Memory (Val dm k)) :=
  atomic_fetch_explicit action m (SA_POINTER_CAST ref) value order.rawValue

/-- The function `sa_<kind>_add(ref, value)`. -/
def sa_add (dm : DataModel) (k : Kind) (m : Memory (Val dm k)) (ref : Nat)
    (value : Val dm k) : Option (Val dm k × Memory (Val dm k)) :=
  sa_fetch dm k Action.add m ref value

/-- The function `sa_<kind>_sub(ref, value)`. -/
def sa_sub (dm : DataModel) (k : Kind) (m : Memory (Val dm k)) (ref : Nat)
    (value : Val dm k) : Option (Val dm k × Memory (Val dm k)) :=
  sa_fetch dm k Action.sub m ref value

/-- The function `sa_<kind>_or(ref, value)`. -/
def sa_or (dm : DataModel) (k : Kind) (m : Memory (Val dm k)) (ref : Nat)
    (value : Val dm k) : Option (Val dm k × Memory (Val dm k)) :=
  sa_fetch dm k Action.or m ref value

/-- The function `sa_<kind>_xor(ref, value)`. -/
def sa_xor (dm : DataModel) (k : Kind) (m : Memory (Val dm k)) (ref : Nat)
    (value : Val dm k) : Option (Val dm k × Memory (Val dm k)) :=
  sa_fetch dm k Action.xor m ref value

/-- The function `sa_<kind>_and(ref, value)`. -/
def sa_and (dm : DataModel) (k : Kind) (m : Memory (Val dm k)) (ref : Nat)
    (value : Val dm k) : Option (Val dm k × Memory (Val dm k)) :=
  sa_fetch dm k Action.and m ref value

/-! ## Atomics.h: the builtin call behind each function

The generic functions of `<stdatomic.h>` are macros over the compiler's
`__c11_atomic_*` builtins: the expanded form of the `Int` cell at the end of
Atomics.h (lines 202-288) shows, for every function of the family, the one builtin
call its body is, with the memory order it passes. An explicit function passes its
`order` argument; a default function passes the literal `5`, the value of
`memory_order_seq_cst`. The definitions above give what a call computes on one
thread, where the order does not show; the definitions here give the call itself,
where it does. `C11Call.run` relates the two. -/

/-- A call of a `__c11_atomic_*` builtin: the builtin, the object, the operands, and
the memory order or orders passed. -/
inductive C11Call (α : Type) where
  | store (object : Nat) (desired : α) (order : Int)
  | load (object : Nat) (order : Int)
  | exchange (object : Nat) (desired : α) (order : Int)
  | compare_exchange_strong (object : Nat) (expected desired : α) (success failure : Int)
  | compare_exchange_weak (object : Nat) (expected desired : α) (success failure : Int)
  | fetch (action : Action) (object : Nat) (operand : α) (order : Int)
  deriving DecidableEq

/-- What a builtin call returns: nothing (`store`), a value (`load`, `exchange`,
the fetch operations) or a boolean (the compare operations). -/
inductive Returned (α : Type) where
  | void
  | value (v : α)
  | flag (b : Bool)
  deriving DecidableEq

/-- What a builtin call computes on one thread: the generic function of the same
name applied to the call's arguments. -/
def C11Call.run {dm : DataModel} {k : Kind} (spurious : Bool) (c : C11Call (Val dm k))
    (m : Memory (Val dm k)) : Option (Returned (Val dm k) × Memory (Val dm k)) :=
  match c with
  | .store object desired order =>
    (atomic_store_explicit m object desired order).map (fun m1 => (Returned.void, m1))
  | .load object order =>
    (atomic_load_explicit m object order).map (fun r => (Returned.value r.1, r.2))
  | .exchange object desired order =>
    (atomic_exchange_explicit m object desired order).map
      (fun r => (Returned.value r.1, r.2))
  | .compare_exchange_strong object expected desired success failure =>
    (atomic_compare_exchange_strong_explicit m object expected desired success failure).map
      (fun r => (Returned.flag r.1.1, r.2))
  | .compare_exchange_weak object expected desired success failure =>
    (atomic_compare_exchange_weak_explicit spurious m object expected desired
      success failure).map (fun r => (Returned.flag r.1.1, r.2))
  | .fetch action object operand order =>
    (atomic_fetch_explicit action m object operand order).map
      (fun r => (Returned.value r.1, r.2))

/-- The call `sa_<kind>_store(ref, value)` makes (expanded form, line 203). -/
def sa_store_call (dm : DataModel) (k : Kind) (ref : Nat) (value : Val dm k) :
    C11Call (Val dm k) :=
  C11Call.store (SA_POINTER_CAST ref) value memory_order_seq_cst

/-- The call `sa_<kind>_store_explicit(ref, value, order)` makes (line 207). -/
def sa_store_explicit_call (dm : DataModel) (k : Kind) (ref : Nat) (value : Val dm k)
    (order : SAMemoryOrder) : C11Call (Val dm k) :=
  C11Call.store (SA_POINTER_CAST ref) value order.rawValue

/-- The call `sa_<kind>_load(ref)` makes (line 211). -/
def sa_load_call (dm : DataModel) (k : Kind) (ref : Nat) : C11Call (Val dm k) :=
  C11Call.load (SA_POINTER_CAST ref) memory_order_seq_cst

/-- The call `sa_<kind>_load_explicit(ref, order)` makes (line 215). -/
def sa_load_explicit_call (dm : DataModel) (k : Kind) (ref : Nat) (order : SAMemoryOrder) :
    C11Call (Val dm k) :=
  C11Call.load (SA_POINTER_CAST ref) order.rawValue

/-- The call `sa_<kind>_exchange(ref, value)` makes (line 219). -/
def sa_exchange_call (dm : DataModel) (k : Kind) (ref : Nat) (value : Val dm k) :
    C11Call (Val dm k) :=
  C11Call.exchange (SA_POINTER_CAST ref) value memory_order_seq_cst

/-- The call `sa_<kind>_exchange_explicit(ref, value, order)` makes (line 223). -/
def sa_exchange_explicit_call (dm : DataModel) (k : Kind) (ref : Nat) (value : Val dm k)
    (order : SAMemoryOrder) : C11Call (Val dm k) :=
  C11Call.exchange (SA_POINTER_CAST ref) value order.rawValue

/-- The call `sa_<kind>_compare_strong(ref, expected, desired)` makes (line 228). -/
def sa_compare_strong_call (dm : DataModel) (k : Kind) (ref : Nat)
    (expected desired : Val dm k) : C11Call (Val dm k) :=
  let value := expected
  C11Call.compare_exchange_strong (SA_POINTER_CAST ref) value desired
    memory_order_seq_cst memory_order_seq_cst

/-- The call `sa_<kind>_compare_strong_explicit(ref, expected, desired, success,
fail)` makes (lines 234-235). -/
def sa_compare_strong_explicit_call (dm : DataModel) (k : Kind) (ref : Nat)
    (expected desired : Val dm k) (success fail : SAMemoryOrder) : C11Call (Val dm k) :=
  let value := expected
  C11Call.compare_exchange_strong (SA_POINTER_CAST ref) value desired
    success.rawValue fail.rawValue

/-- The call `sa_<kind>_compare_weak(ref, expected, desired)` makes (line 240). -/
def sa_compare_weak_call (dm : DataModel) (k : Kind) (ref : Nat)
    (expected desired : Val dm k) : C11Call (Val dm k) :=
  let value := expected
  C11Call.compare_exchange_weak (SA_POINTER_CAST ref) value desired
    memory_order_seq_cst memory_order_seq_cst

/-- The call `sa_<kind>_compare_weak_explicit(ref, expected, desired, success, fail)`
makes (lines 246-247). -/
def sa_compare_weak_explicit_call (dm : DataModel) (k : Kind) (ref : Nat)
    (expected desired : Val dm k) (success fail : SAMemoryOrder) : C11Call (Val dm k) :=
  let value := expected
  C11Call.compare_exchange_weak (SA_POINTER_CAST ref) value desired
    success.rawValue fail.rawValue

/-- The call `sa_<kind>_<action>(ref, value)` makes (lines 251, 259, 267, 275,
283). -/
def sa_fetch_call (dm : DataModel) (k : Kind) (action : Action) (ref : Nat)
    (value : Val dm k) : C11Call (Val dm k) :=
  C11Call.fetch action (SA_POINTER_CAST ref) value memory_order_seq_cst

/-- The call `sa_<kind>_<action>_explicit(ref, value, order)` makes (lines 255, 263,
271, 279, 287). -/
def sa_fetch_explicit_call (dm : DataModel) (k : Kind) (action : Action) (ref : Nat)
    (value : Val dm k) (order : SAMemoryOrder) : C11Call (Val dm k) :=
  C11Call.fetch action (SA_POINTER_CAST ref) value order.rawValue

/-! ## AtomicValue.h: the generic pointer-sized cell -/

/-- The type `uintptr_t`, and a `void*` by its address: `_AtomicValue` is
`atomic_uintptr_t`. -/
abbrev UIntPtr (dm : DataModel) : Type := Fin (2 ^ dm.pointerBits)

/-- The cast `(uintptr_t)value` of a `void*`. -/
def toUIntPtr {dm : DataModel} (value : UIntPtr dm) : UIntPtr dm := value

/-- The cast `(void*)` of a `uintptr_t`. -/
def toVoidPtr {dm : DataModel} (value : UIntPtr dm) : UIntPtr dm := value

/-- The function `sa_ref_create(value)`; `malloc` as in `sa_create`. -/
def sa_ref_create (dm : DataModel) (m : Memory (UIntPtr dm)) (malloc : Nat)
    (value : UIntPtr dm) : Option (Nat × Memory (UIntPtr dm)) :=
  let result := malloc
  match atomic_init m result (toUIntPtr value) with
  | none => none
  | some m1 => some (SA_POINTER_CAST result, m1)

/-- The function `sa_ref_init(ref, value)`. -/
def sa_ref_init (dm : DataModel) (m : Memory (UIntPtr dm)) (ref : Nat)
    (value : UIntPtr dm) : Option (Memory (UIntPtr dm)) :=
  let result := SA_POINTER_CAST ref
  atomic_init m result (toUIntPtr value)

/-- The function `sa_ref_free(ref)`. -/
def sa_ref_free (dm : DataModel) (m : Memory (UIntPtr dm)) (ref : Nat) :
    Memory (UIntPtr dm) :=
  free m (SA_POINTER_CAST ref)

/-- The function `sa_ref_store_explicit(ref, value, order)`. -/
def sa_ref_store_explicit (dm : DataModel) (m : Memory (UIntPtr dm)) (ref : Nat)
    (value : UIntPtr dm) (order : SAMemoryOrder) : Option (Memory (UIntPtr dm)) :=
  atomic_store_explicit m (SA_POINTER_CAST ref) (toUIntPtr value) order.rawValue

/-- The function `sa_ref_load(ref)`. -/
def sa_ref_load (dm : DataModel) (m : Memory (UIntPtr dm)) (ref : Nat) :
    Option (UIntPtr dm × Memory (UIntPtr dm)) :=
  match atomic_load m (SA_POINTER_CAST ref) with
  | none => none
  | some (v, m1) => some (toVoidPtr v, m1)

/-- The function `sa_ref_load_explicit(ref, order)`. -/
def sa_ref_load_explicit (dm : DataModel) (m : Memory (UIntPtr dm)) (ref : Nat)
    (order : SAMemoryOrder) : Option (UIntPtr dm × Memory (UIntPtr dm)) :=
  match atomic_load_explicit m (SA_POINTER_CAST ref) order.rawValue with
  | none => none
  | some (v, m1) => some (toVoidPtr v, m1)

/-- The function `sa_ref_exchange(ref, value)`. -/
def sa_ref_exchange (dm : DataModel) (m : Memory (UIntPtr dm)) (ref : Nat)
    (value : UIntPtr dm) : Option (UIntPtr dm × Memory (UIntPtr dm)) :=
  match atomic_exchange m (SA_POINTER_CAST ref) (toUIntPtr value) with
  | none => none
  | some (v, m1) => some (toVoidPtr v, m1)

/-- The function `sa_ref_exchange_explicit(ref, value, order)`. -/
def sa_ref_exchange_explicit (dm : DataModel) (m : Memory (UIntPtr dm)) (ref : Nat)
    (value : UIntPtr dm) (order : SAMemoryOrder) :
    Option (UIntPtr dm × Memory (UIntPtr dm)) :=
  match atomic_exchange_explicit m (SA_POINTER_CAST ref) (toUIntPtr value) order.rawValue with
  | none => none
  | some (v, m1) => some (toVoidPtr v, m1)

/-- The function `sa_ref_compare_strong(ref, expected, desired)`. -/
def sa_ref_compare_strong (dm : DataModel) (m : Memory (UIntPtr dm)) (ref : Nat)
    (expected desired : UIntPtr dm) : Option (Bool × Memory (UIntPtr dm)) :=
  let value := toUIntPtr expected
  match atomic_compare_exchange_strong m (SA_POINTER_CAST ref) value (toUIntPtr desired) with
  | none => none
  | some (r, m1) => some (r.1, m1)

/-- The function `sa_ref_compare_strong_explicit(ref, expected, desired, success, fail)`. -/
def sa_ref_compare_strong_explicit (dm : DataModel) (m : Memory (UIntPtr dm)) (ref : Nat)
    (expected desired : UIntPtr dm) (success fail : SAMemoryOrder) :
    Option (Bool × Memory (UIntPtr dm)) :=
  let value := toUIntPtr expected
  match atomic_compare_exchange_strong_explicit m (SA_POINTER_CAST ref) value
      (toUIntPtr desired) success.rawValue fail.rawValue with
  | none => none
  | some (r, m1) => some (r.1, m1)

/-- The function `sa_ref_compare_weak(ref, expected, desired)`. -/
def sa_ref_compare_weak (dm : DataModel) (spurious : Bool) (m : Memory (UIntPtr dm))
    (ref : Nat) (expected desired : UIntPtr dm) : Option (Bool × Memory (UIntPtr dm)) :=
  let value := toUIntPtr expected
  match atomic_compare_exchange_weak spurious m (SA_POINTER_CAST ref) value
      (toUIntPtr desired) with
  | none => none
  | some (r, m1) => some (r.1, m1)

/-- The function `sa_ref_compare_weak_explicit(ref, expected, desired, success, fail)`. -/
def sa_ref_compare_weak_explicit (dm : DataModel) (spurious : Bool) (m : Memory (UIntPtr dm))
    (ref : Nat) (expected desired : UIntPtr dm) (success fail : SAMemoryOrder) :
    Option (Bool × Memory (UIntPtr dm)) :=
  let value := toUIntPtr expected
  match atomic_compare_exchange_weak_explicit spurious m (SA_POINTER_CAST ref) value
      (toUIntPtr desired) success.rawValue fail.rawValue with
  | none => none
  | some (r, m1) => some (r.1, m1)

/-- The functions AtomicValue.h defines, by name, in the order of the file
(lines 35-96). -/
def atomicValueFunctions : List String :=
  ["sa_ref_create", "sa_ref_init", "sa_ref_free", "sa_ref_required_size",
   "sa_ref_store_explicit",
   "sa_ref_load", "sa_ref_load_explicit",
   "sa_ref_exchange", "sa_ref_exchange_explicit",
   "sa_ref_compare_strong", "sa_ref_compare_strong_explicit",
   "sa_ref_compare_weak", "sa_ref_compare_weak_explicit"]

/-- The constants of `SAMemoryOrder`, in the order the enumeration lists them
(Atomics.h 37-42). -/
def SAMemoryOrder.all : List SAMemoryOrder :=
  [SAMemoryOrder.Relaxed, SAMemoryOrder.Consume, SAMemoryOrder.Acquire,
   SAMemoryOrder.Release, SAMemoryOrder.AcquireAndRelease,
   SAMemoryOrder.SequentiallyConsistent]

/-! ## Allocation failure, with the way a call ends kept apart

`sa_create` above gives `none` whenever a call has no defined result. For the
behaviour of `create` on a failed allocation the ways a call can end without
returning are told apart. -/

/-- How a call can end without returning. -/
inductive Failure where
  /-- A store through the null pointer: undefined behaviour. -/
  | nullWrite
  /-- The program is ended by a call of `abort`. -/
  | abort
  deriving DecidableEq, Repr

/-- The generic function `atomic_init(obj, value)`, with the store through a null
`obj` reported as such. -/
def atomic_init_outcome {α : Type} (m : Memory α) (obj : Nat) (value : α) :
    Except Failure (Memory α) :=
  if obj = 0 then Except.error Failure.nullWrite else Except.ok (m.write obj value)

/-- The function `sa_<kind>_create(value)` (Atomics.h 47-51): the block `malloc`
returned is initialised and returned, with no statement in between. -/
def sa_create_outcome (dm : DataModel) (k : Kind) (m : Memory (Val dm k)) (malloc : Nat)
    (value : Val dm k) : Except Failure (Nat × Memory (Val dm k)) :=
  let result := malloc
  match atomic_init_outcome m result value with
  | Except.error e => Except.error e
  | Except.ok m1 => Except.ok (SA_POINTER_CAST result, m1)

/-- The function `sa_ref_create(value)` (AtomicValue.h 35-39), likewise. -/
def sa_ref_create_outcome (dm : DataModel) (m : Memory (UIntPtr dm)) (malloc : Nat)
    (value : UIntPtr dm) : Except Failure (Nat × Memory (UIntPtr dm)) :=
  let result := malloc
  match atomic_init_outcome m result (toUIntPtr value) with
  | Except.error e => Except.error e
  | Except.ok m1 => Except.ok (SA_POINTER_CAST result, m1)

/-! ## Several threads on one cell

The scenario of concurrent increment is a program over the functions of Atomics.h,
not a part of the headers. A thread is a list of calls on the shared cell, with the
value its last load returned. The body of each function of the headers is one C11
atomic operation, which takes effect as one indivisible step (C11 7.17.7: the fetch
functions are atomic read-modify-write operations); so a step of the machine is one
call by one thread, and a run is given by the order in which the threads take their
steps. A thread that adds with `sa_<kind>_add` takes one step for it; a thread that
adds with a load followed by a store takes two, and another thread may step in
between. -/

/-- One call of a thread on the shared cell `ref`. -/
inductive ThreadCall (dm : DataModel) (k : Kind) where
  /-- The call `sa_<kind>_add(ref, value)`. -/
  | add (value : Val dm k)
  /-- The call `loaded = sa_<kind>_load(ref)`. -/
  | load
  /-- The call `sa_<kind>_store(ref, loaded + value)`. -/
  | store_loaded_plus (value : Val dm k)
  deriving DecidableEq

/-- A thread: the calls it has still to make, and the value its last load
returned. -/
structure Thread (dm : DataModel) (k : Kind) where
  program : List (ThreadCall dm k)
  loaded : Option (Val dm k)
  deriving DecidableEq

/-- The threads and the memory they share. -/
structure Machine (dm : DataModel) (k : Kind) where
  memory : Memory (Val dm k)
  threads : List (Thread dm k)

/-- Thread `t` makes its next call on the cell `ref`. There is no step when there
is no thread `t`, when it has no call left, or when the call has no defined
result. -/
def Machine.step {dm : DataModel} {k : Kind} (ref : Nat) (s : Machine dm k) (t : Nat) :
    Option (Machine dm k) :=
  match s.threads[t]? with
  | none => none
  | some th =>
    match th.program with
    | [] => none
    | ThreadCall.add value :: rest =>
      match sa_add dm k s.memory ref value with
      | none => none
      | some (_, m1) => some ⟨m1, s.threads.set t ⟨rest, th.loaded⟩⟩
    | ThreadCall.load :: rest =>
      match sa_load dm k s.memory ref with
      | none => none
      | some (v, m1) => some ⟨m1, s.threads.set t ⟨rest, some v⟩⟩
    | ThreadCall.store_loaded_plus value :: rest =>
      match th.loaded with
      | none => none
      | some v =>
        match sa_store dm k s.memory ref (Val.add v value) with
        | none => none
        | some m1 => some ⟨m1, s.threads.set t ⟨rest, th.loaded⟩⟩

/-- The machine after the threads have taken their steps in the order `schedule`
lists them. -/
def Machine.run {dm : DataModel} {k : Kind} (ref : Nat) :
    List Nat → Machine dm k → Option (Machine dm k)
  | [], s => some s
  | t :: rest, s =>
    match s.step ref t with
    | none => none
    | some s1 => Machine.run ref rest s1

/-- A thread that adds one `count` times by a load followed by a store. -/
def loadStoreIncrementer (dm : DataModel) (k : Kind) (count : Nat) : Thread dm k :=
  ⟨(List.replicate count
      [ThreadCall.load, ThreadCall.store_loaded_plus (Val.ofNat dm k 1)]).flatten, none⟩

/-- A schedule is an interleaving of `n` threads that each make `count` calls:
only the threads `0`, ..., `n - 1` occur in it, each exactly `count` times. -/
def IsInterleaving (n count : Nat) (schedule : List Nat) : Prop :=
  (∀ t ∈ schedule, t < n) ∧ ∀ t, t < n → schedule.count t = count

instance IsInterleaving.decidable (n count : Nat) (schedule : List Nat) :
    Decidable (IsInterleaving n count schedule) := by
  unfold IsInterleaving
  exact inferInstance

/-! ## Lemmas on memory and on the generic functions -/

theorem Memory.write_same {α : Type} (m : Memory α) (p : Nat) (v : α) :
    (m.write p v) p = some v := by
  simp [Memory.write]

theorem Memory.write_other {α : Type} (m : Memory α) (p q : Nat) (v : α) (h : q ≠ p) :
    (m.write p v) q = m q := by
  simp [Memory.write, h]

theorem atomic_init_ok {α : Type} (m : Memory α) (obj : Nat) (value : α) (h : obj ≠ 0) :
    atomic_init m obj value = some (m.write obj value) := by
  simp [atomic_init, h]

theorem atomic_load_explicit_live {α : Type} (m : Memory α) (object : Nat) (order : Int)
    (c : α) (h : m object = some c) :
    atomic_load_explicit m object order = some (c, m) := by
  simp [atomic_load_explicit, h]

theorem atomic_store_explicit_live {α : Type} (m : Memory α) (object : Nat) (desired : α)
    (order : Int) (c : α) (h : m object = some c) :
    atomic_store_explicit m object desired order = some (m.write object desired) := by
  simp [atomic_store_explicit, h]

theorem atomic_exchange_explicit_live {α : Type} (m : Memory α) (object : Nat) (desired : α)
    (order : Int) (c : α) (h : m object = some c) :
    atomic_exchange_explicit m object desired order = some (c, m.write object desired) := by
  simp [atomic_exchange_explicit, h]

theorem atomic_compare_exchange_strong_explicit_live {α : Type} [DecidableEq α]
    (m : Memory α) (object : Nat) (expected desired : α) (success failure : Int) (c : α)
    (h : m object = some c) :
    atomic_compare_exchange_strong_explicit m object expected desired success failure =
      some (if c = expected then ((true, expected), m.write object desired)
        else ((false, c), m)) := by
  simp only [atomic_compare_exchange_strong_explicit, h]
  split <;> rfl

theorem atomic_fetch_explicit_live {dm : DataModel} {k : Kind} (action : Action)
    (m : Memory (Val dm k)) (object : Nat) (operand : Val dm k) (order : Int) (c : Val dm k)
    (h : m object = some c) :
    atomic_fetch_explicit action m object operand order =
      some (c, m.write object (action.apply c operand)) := by
  simp [atomic_fetch_explicit, h]

/-! ### The operations of the two headers on a live cell -/

theorem sa_load_explicit_live (dm : DataModel) (k : Kind) (m : Memory (Val dm k)) (ref : Nat)
    (order : SAMemoryOrder) (c : Val dm k) (h : m ref = some c) :
    sa_load_explicit dm k m ref order = some (c, m) := by
  simp [sa_load_explicit, SA_POINTER_CAST, atomic_load_explicit, h]

theorem sa_load_live (dm : DataModel) (k : Kind) (m : Memory (Val dm k)) (ref : Nat)
    (c : Val dm k) (h : m ref = some c) :
    sa_load dm k m ref = some (c, m) := by
  simp [sa_load, SA_POINTER_CAST, atomic_load, atomic_load_explicit, h]

theorem sa_ref_load_explicit_live (dm : DataModel) (m : Memory (UIntPtr dm)) (ref : Nat)
    (order : SAMemoryOrder) (c : UIntPtr dm) (h : m ref = some c) :
    sa_ref_load_explicit dm m ref order = some (c, m) := by
  simp [sa_ref_load_explicit, SA_POINTER_CAST, atomic_load_explicit, toVoidPtr, h]

theorem sa_ref_load_live (dm : DataModel) (m : Memory (UIntPtr dm)) (ref : Nat)
    (c : UIntPtr dm) (h : m ref = some c) :
    sa_ref_load dm m ref = some (c, m) := by
  simp [sa_ref_load, SA_POINTER_CAST, atomic_load, atomic_load_explicit, toVoidPtr, h]

theorem sa_compare_strong_explicit_live (dm : DataModel) (k : Kind) (m : Memory (Val dm k))
    (ref : Nat) (expected desired : Val dm k) (success fail : SAMemoryOrder) (c : Val dm k)
    (h : m ref = some c) :
    sa_compare_strong_explicit dm k m ref expected desired success fail =
      some (decide (c = expected), if c = expected then m.write ref desired else m) := by
  simp only [sa_compare_strong_explicit, SA_POINTER_CAST,
    atomic_compare_exchange_strong_explicit_live m ref expected desired _ _ c h]
  by_cases hc : c = expected <;> simp [hc]

theorem sa_compare_strong_live (dm : DataModel) (k : Kind) (m : Memory (Val dm k))
    (ref : Nat) (expected desired : Val dm k) (c : Val dm k) (h : m ref = some c) :
    sa_compare_strong dm k m ref expected desired =
      some (decide (c = expected), if c = expected then m.write ref desired else m) := by
  simp only [sa_compare_strong, SA_POINTER_CAST, atomic_compare_exchange_strong,
    atomic_compare_exchange_strong_explicit_live m ref expected desired _ _ c h]
  by_cases hc : c = expected <;> simp [hc]

theorem sa_ref_compare_strong_explicit_live (dm : DataModel) (m : Memory (UIntPtr dm))
    (ref : Nat) (expected desired : UIntPtr dm) (success fail : SAMemoryOrder)
    (c : UIntPtr dm) (h : m ref = some c) :
    sa_ref_compare_strong_explicit dm m ref expected desired success fail =
      some (decide (c = expected), if c = expected then m.write ref desired else m) := by
  simp only [sa_ref_compare_strong_explicit, SA_POINTER_CAST, toUIntPtr,
    atomic_compare_exchange_strong_explicit_live m ref expected desired _ _ c h]
  by_cases hc : c = expected <;> simp [hc]

theorem sa_ref_compare_strong_live (dm : DataModel) (m : Memory (UIntPtr dm))
    (ref : Nat) (expected desired : UIntPtr dm) (c : UIntPtr dm) (h : m ref = some c) :
    sa_ref_compare_strong dm m ref expected desired =
      some (decide (c = expected), if c = expected then m.write ref desired else m) := by
  simp only [sa_ref_compare_strong, SA_POINTER_CAST, toUIntPtr, atomic_compare_exchange_strong,
    atomic_compare_exchange_strong_explicit_live m ref expected desired _ _ c h]
  by_cases hc : c = expected <;> simp [hc]

/-! ## Compare-and-swap, strong form -/

/-- C1: on a live cell holding `c`, of any scalar kind or the pointer cell,
`compare_strong` and `compare_strong_explicit` (under every success and fail order)
return a result, the result is `true` exactly when `c` equals `expected`, and when
it is `true` a load that follows returns `desired`. -/
theorem compare_strong_true_iff_equal (dm : DataModel) (k : Kind)
    (m : Memory (Val dm k)) (ref : Nat) (c expected desired : Val dm k)
    (mp : Memory (UIntPtr dm)) (refp : Nat) (cp expectedp desiredp : UIntPtr dm)
    (success fail : SAMemoryOrder)
    (h : m ref = some c) (hp : mp refp = some cp) :
    (∃ b m1, sa_compare_strong dm k m ref expected desired = some (b, m1) ∧
      (b = true ↔ c = expected) ∧ (b = true → sa_load dm k m1 ref = some (desired, m1))) ∧
    (∃ b m1, sa_compare_strong_explicit dm k m ref expected desired success fail
        = some (b, m1) ∧
      (b = true ↔ c = expected) ∧ (b = true → sa_load dm k m1 ref = some (desired, m1))) ∧
    (∃ b m1, sa_ref_compare_strong dm mp refp expectedp desiredp = some (b, m1) ∧
      (b = true ↔ cp = expectedp) ∧
      (b = true → sa_ref_load dm m1 refp = some (desiredp, m1))) ∧
    (∃ b m1, sa_ref_compare_strong_explicit dm mp refp expectedp desiredp success fail
        = some (b, m1) ∧
      (b = true ↔ cp = expectedp) ∧
      (b = true → sa_ref_load dm m1 refp = some (desiredp, m1))) := by
  refine ⟨⟨_, _, sa_compare_strong_live dm k m ref expected desired c h, ?_, ?_⟩,
    ⟨_, _, sa_compare_strong_explicit_live dm k m ref expected desired success fail c h,
      ?_, ?_⟩,
    ⟨_, _, sa_ref_compare_strong_live dm mp refp expectedp desiredp cp hp, ?_, ?_⟩,
    ⟨_, _, sa_ref_compare_strong_explicit_live dm mp refp expectedp desiredp success fail
      cp hp, ?_, ?_⟩⟩
  · simp
  · intro hb
    have hc : c = expected := by simpa using hb
    rw [if_pos hc]
    exact sa_load_live dm k _ ref desired (Memory.write_same m ref desired)
  · simp
  · intro hb
    have hc : c = expected := by simpa using hb
    rw [if_pos hc]
    exact sa_load_live dm k _ ref desired (Memory.write_same m ref desired)
  · simp
  · intro hb
    have hc : cp = expectedp := by simpa using hb
    rw [if_pos hc]
    exact sa_ref_load_live dm _ refp desiredp (Memory.write_same mp refp desiredp)
  · simp
  · intro hb
    have hc : cp = expectedp := by simpa using hb
    rw [if_pos hc]
    exact sa_ref_load_live dm _ refp desiredp (Memory.write_same mp refp desiredp)

/-- C1 at a concrete input: an `Int32` cell and a pointer cell, each holding `5`,
are live, and comparing against `5` with desired `9` meets the contract. -/
theorem compare_strong_true_iff_equal_witness :
    (Memory.empty.write 16 (5 : Val DataModel.LP64 Kind.int32)) 16 = some 5 ∧
    (Memory.empty.write 32 (5 : UIntPtr DataModel.LP64)) 32 = some 5 ∧
    (∃ b m1, sa_compare_strong DataModel.LP64 Kind.int32 (Memory.empty.write 16 5) 16 5 9
        = some (b, m1) ∧
      (b = true ↔ (5 : Val DataModel.LP64 Kind.int32) = 5) ∧
      (b = true → sa_load DataModel.LP64 Kind.int32 m1 16 = some (9, m1))) :=
  ⟨rfl, rfl,
    (compare_strong_true_iff_equal DataModel.LP64 Kind.int32 (Memory.empty.write 16 5) 16
      5 5 9 (Memory.empty.write 32 5) 32 5 5 9 SAMemoryOrder.AcquireAndRelease
      SAMemoryOrder.Relaxed rfl rfl).1⟩

/-- C2: on a live cell holding `c`, of any scalar kind or the pointer cell, with
`expected` different from `c`: `compare_strong` (and the explicit form under every
order) returns `false`, the memory is the one before the call, and a load that
follows still returns `c`, whatever `desired` is. -/
theorem compare_strong_mismatch_unmodified (dm : DataModel) (k : Kind)
    (m : Memory (Val dm k)) (ref : Nat) (c expected desired : Val dm k)
    (mp : Memory (UIntPtr dm)) (refp : Nat) (cp expectedp desiredp : UIntPtr dm)
    (success fail : SAMemoryOrder)
    (h : m ref = some c) (hne : expected ≠ c)
    (hp : mp refp = some cp) (hnep : expectedp ≠ cp) :
    (sa_compare_strong dm k m ref expected desired = some (false, m) ∧
      sa_compare_strong_explicit dm k m ref expected desired success fail = some (false, m) ∧
      sa_load dm k m ref = some (c, m)) ∧
    (sa_ref_compare_strong dm mp refp expectedp desiredp = some (false, mp) ∧
      sa_ref_compare_strong_explicit dm mp refp expectedp desiredp success fail
        = some (false, mp) ∧
      sa_ref_load dm mp refp = some (cp, mp)) := by
  have hc : ¬ c = expected := fun e => hne e.symm
  have hcp : ¬ cp = expectedp := fun e => hnep e.symm
  refine ⟨⟨?_, ?_, sa_load_live dm k m ref c h⟩, ⟨?_, ?_, sa_ref_load_live dm mp refp cp hp⟩⟩
  · rw [sa_compare_strong_live dm k m ref expected desired c h]; simp [hc]
  · rw [sa_compare_strong_explicit_live dm k m ref expected desired success fail c h]
    simp [hc]
  · rw [sa_ref_compare_strong_live dm mp refp expectedp desiredp cp hp]; simp [hcp]
  · rw [sa_ref_compare_strong_explicit_live dm mp refp expectedp desiredp success fail cp hp]
    simp [hcp]

/-- C2 at a concrete input: cells holding `5`, compared against `3` with desired
`9`, return `false` and still load `5`. -/
theorem compare_strong_mismatch_unmodified_witness :
    (Memory.empty.write 16 (5 : Val DataModel.LP64 Kind.int32)) 16 = some 5 ∧
    (3 : Val DataModel.LP64 Kind.int32) ≠ 5 ∧
    sa_compare_strong DataModel.LP64 Kind.int32 (Memory.empty.write 16 5) 16 3 9
      = some (false, Memory.empty.write 16 5) ∧
    sa_load DataModel.LP64 Kind.int32 (Memory.empty.write 16 5) 16
      = some (5, Memory.empty.write 16 5) :=
  have w := compare_strong_mismatch_unmodified DataModel.LP64 Kind.int32
    (Memory.empty.write 16 5) 16 5 3 9 (Memory.empty.write 32 5) 32 5 3 9
    SAMemoryOrder.SequentiallyConsistent SAMemoryOrder.Acquire rfl (by decide) rfl (by decide)
  ⟨rfl, by decide, w.1.1, w.1.2.2⟩

/-! ## Create, exchange, load, store -/

theorem sa_create_ok (dm : DataModel) (k : Kind) (m : Memory (Val dm k)) (malloc : Nat)
    (value : Val dm k) (h : malloc ≠ 0) :
    sa_create dm k m malloc value = some (malloc, m.write malloc value) := by
  simp [sa_create, SA_POINTER_CAST, atomic_init, h]

theorem sa_ref_create_ok (dm : DataModel) (m : Memory (UIntPtr dm)) (malloc : Nat)
    (value : UIntPtr dm) (h : malloc ≠ 0) :
    sa_ref_create dm m malloc value = some (malloc, m.write malloc value) := by
  simp [sa_ref_create, SA_POINTER_CAST, atomic_init, toUIntPtr, h]

theorem sa_exchange_explicit_live (dm : DataModel) (k : Kind) (m : Memory (Val dm k))
    (ref : Nat) (value : Val dm k) (order : SAMemoryOrder) (c : Val dm k)
    (h : m ref = some c) :
    sa_exchange_explicit dm k m ref value order = some (c, m.write ref value) := by
  simp [sa_exchange_explicit, SA_POINTER_CAST, atomic_exchange_explicit, h]

theorem sa_exchange_live (dm : DataModel) (k : Kind) (m : Memory (Val dm k))
    (ref : Nat) (value : Val dm k) (c : Val dm k) (h : m ref = some c) :
    sa_exchange dm k m ref value = some (c, m.write ref value) := by
  simp [sa_exchange, SA_POINTER_CAST, atomic_exchange, atomic_exchange_explicit, h]

theorem sa_ref_exchange_explicit_live (dm : DataModel) (m : Memory (UIntPtr dm))
    (ref : Nat) (value : UIntPtr dm) (order : SAMemoryOrder) (c : UIntPtr dm)
    (h : m ref = some c) :
    sa_ref_exchange_explicit dm m ref value order = some (c, m.write ref value) := by
  simp [sa_ref_exchange_explicit, SA_POINTER_CAST, atomic_exchange_explicit, toUIntPtr,
    toVoidPtr, h]

theorem sa_ref_exchange_live (dm : DataModel) (m : Memory (UIntPtr dm))
    (ref : Nat) (value : UIntPtr dm) (c : UIntPtr dm) (h : m ref = some c) :
    sa_ref_exchange dm m ref value = some (c, m.write ref value) := by
  simp [sa_ref_exchange, SA_POINTER_CAST, atomic_exchange, atomic_exchange_explicit,
    toUIntPtr, toVoidPtr, h]

theorem sa_store_explicit_live (dm : DataModel) (k : Kind) (m : Memory (Val dm k))
    (ref : Nat) (value : Val dm k) (order : SAMemoryOrder) (c : Val dm k)
    (h : m ref = some c) :
    sa_store_explicit dm k m ref value order = some (m.write ref value) := by
  simp [sa_store_explicit, SA_POINTER_CAST, atomic_store_explicit, h]

theorem sa_store_live (dm : DataModel) (k : Kind) (m : Memory (Val dm k))
    (ref : Nat) (value : Val dm k) (c : Val dm k) (h : m ref = some c) :
    sa_store dm k m ref value = some (m.write ref value) := by
  simp [sa_store, SA_POINTER_CAST, atomic_store, atomic_store_explicit, h]

theorem sa_ref_store_explicit_live (dm : DataModel) (m : Memory (UIntPtr dm))
    (ref : Nat) (value : UIntPtr dm) (order : SAMemoryOrder) (c : UIntPtr dm)
    (h : m ref = some c) :
    sa_ref_store_explicit dm m ref value order = some (m.write ref value) := by
  simp [sa_ref_store_explicit, SA_POINTER_CAST, atomic_store_explicit, toUIntPtr, h]

/-- C3: when the allocation succeeds, `create(v1)` returns a handle on which
`exchange(h, v2)`, and `exchange_explicit(h, v2, order)` under every order, returns
`v1`, and a load that follows returns `v2`; for every scalar kind and for the
pointer cell. -/
theorem exchange_after_create (dm : DataModel) (k : Kind) (m : Memory (Val dm k))
    (malloc : Nat) (v1 v2 : Val dm k) (mp : Memory (UIntPtr dm)) (p1 p2 : UIntPtr dm)
    (order : SAMemoryOrder) (hm : malloc ≠ 0) :
    (∃ h m1, sa_create dm k m malloc v1 = some (h, m1) ∧
      (∃ m2, sa_exchange dm k m1 h v2 = some (v1, m2) ∧
        sa_load dm k m2 h = some (v2, m2)) ∧
      (∃ m2, sa_exchange_explicit dm k m1 h v2 order = some (v1, m2) ∧
        sa_load dm k m2 h = some (v2, m2))) ∧
    (∃ h m1, sa_ref_create dm mp malloc p1 = some (h, m1) ∧
      (∃ m2, sa_ref_exchange dm m1 h p2 = some (p1, m2) ∧
        sa_ref_load dm m2 h = some (p2, m2)) ∧
      (∃ m2, sa_ref_exchange_explicit dm m1 h p2 order = some (p1, m2) ∧
        sa_ref_load dm m2 h = some (p2, m2))) := by
  refine ⟨⟨_, _, sa_create_ok dm k m malloc v1 hm,
      ⟨(m.write malloc v1).write malloc v2, ?_, ?_⟩,
      ⟨(m.write malloc v1).write malloc v2, ?_, ?_⟩⟩,
    ⟨_, _, sa_ref_create_ok dm mp malloc p1 hm,
      ⟨(mp.write malloc p1).write malloc p2, ?_, ?_⟩,
      ⟨(mp.write malloc p1).write malloc p2, ?_, ?_⟩⟩⟩
  · exact sa_exchange_live dm k _ malloc v2 v1 (Memory.write_same m malloc v1)
  · exact sa_load_live dm k _ malloc v2 (Memory.write_same _ malloc v2)
  · exact sa_exchange_explicit_live dm k _ malloc v2 order v1 (Memory.write_same m malloc v1)
  · exact sa_load_live dm k _ malloc v2 (Memory.write_same _ malloc v2)
  · exact sa_ref_exchange_live dm _ malloc p2 p1 (Memory.write_same mp malloc p1)
  · exact sa_ref_load_live dm _ malloc p2 (Memory.write_same _ malloc p2)
  · exact sa_ref_exchange_explicit_live dm _ malloc p2 order p1
      (Memory.write_same mp malloc p1)
  · exact sa_ref_load_live dm _ malloc p2 (Memory.write_same _ malloc p2)

/-- C3 at a concrete input: a `UInt8` cell created with `7` at address `16`, then
exchanged with `200`. -/
theorem exchange_after_create_witness :
    (16 : Nat) ≠ 0 ∧
    ∃ h m1, sa_create DataModel.LP64 Kind.uint8 Memory.empty 16 7 = some (h, m1) ∧
      (∃ m2, sa_exchange DataModel.LP64 Kind.uint8 m1 h 200 = some (7, m2) ∧
        sa_load DataModel.LP64 Kind.uint8 m2 h = some (200, m2)) ∧
      (∃ m2, sa_exchange_explicit DataModel.LP64 Kind.uint8 m1 h 200 SAMemoryOrder.Release
          = some (7, m2) ∧
        sa_load DataModel.LP64 Kind.uint8 m2 h = some (200, m2)) :=
  ⟨by decide,
    (exchange_after_create DataModel.LP64 Kind.uint8 Memory.empty 16 7 200 Memory.empty
      4096 8192 SAMemoryOrder.Release (by decide)).1⟩

/-! ## Fetch-and-modify -/

theorem Val.or_val {dm : DataModel} {k : Kind} (c x : Val dm k) :
    (Val.or c x).val = c.val ||| x.val := by
  show (Nat.lor c.val x.val) % _ = _
  exact Nat.mod_eq_of_lt (Nat.or_lt_two_pow c.isLt x.isLt)

theorem Val.xor_val {dm : DataModel} {k : Kind} (c x : Val dm k) :
    (Val.xor c x).val = c.val ^^^ x.val := by
  show (Nat.xor c.val x.val) % _ = _
  exact Nat.mod_eq_of_lt (Nat.xor_lt_two_pow c.isLt x.isLt)

theorem Val.and_val {dm : DataModel} {k : Kind} (c x : Val dm k) :
    (Val.and c x).val = c.val &&& x.val := by
  show (Nat.land c.val x.val) % _ = _
  exact Nat.mod_eq_of_lt (Nat.and_lt_two_pow _ x.isLt)

theorem Val.add_val {dm : DataModel} {k : Kind} (c x : Val dm k) (hk : k ≠ Kind.bool) :
    (Val.add c x).val = (c.val + x.val) % 2 ^ k.bits dm := by
  simp [Val.add, hk, Fin.val_add]

theorem Val.sub_val {dm : DataModel} {k : Kind} (c x : Val dm k) (hk : k ≠ Kind.bool) :
    ((Val.sub c x).val : Int) = ((c.val : Int) - (x.val : Int)) % 2 ^ k.bits dm := by
  simp only [Val.sub, hk, if_false, Fin.coe_sub]
  have hx : x.val ≤ 2 ^ k.bits dm := Nat.le_of_lt x.isLt
  push_cast [Nat.cast_sub hx]
  rw [show ((2 : Int) ^ k.bits dm - (x.val : Int) + (c.val : Int))
    = ((c.val : Int) - (x.val : Int)) + 2 ^ k.bits dm by ring]
  exact Int.add_emod_self

/-- The integer a pattern stands for is congruent to the pattern modulo
`2 ^ bits`. -/
theorem Val.toInt_emod {dm : DataModel} {k : Kind} (v : Val dm k) :
    v.toInt % 2 ^ k.bits dm = (v.val : Int) := by
  have hlt : ((v.val : Nat) : Int) < 2 ^ k.bits dm := by exact_mod_cast v.isLt
  have h0 : (0 : Int) ≤ (v.val : Int) := Int.natCast_nonneg _
  unfold Val.toInt
  split
  · rw [Int.sub_emod, Int.emod_self, sub_zero, Int.emod_emod, Int.emod_eq_of_lt h0 hlt]
  · exact Int.emod_eq_of_lt h0 hlt

theorem sa_fetch_explicit_live (dm : DataModel) (k : Kind) (action : Action)
    (m : Memory (Val dm k)) (ref : Nat) (value : Val dm k) (order : SAMemoryOrder)
    (c : Val dm k) (h : m ref = some c) :
    sa_fetch_explicit dm k action m ref value order
      = some (c, m.write ref (action.apply c value)) := by
  simp [sa_fetch_explicit, SA_POINTER_CAST, atomic_fetch_explicit, h]

theorem sa_fetch_live (dm : DataModel) (k : Kind) (action : Action)
    (m : Memory (Val dm k)) (ref : Nat) (value : Val dm k) (c : Val dm k)
    (h : m ref = some c) :
    sa_fetch dm k action m ref value = some (c, m.write ref (action.apply c value)) := by
  simp [sa_fetch, SA_POINTER_CAST, atomic_fetch, atomic_fetch_explicit, h]

/-- C4: on a live cell of an integer kind holding `c`, `add(h, x)` returns `c`, and
a load that follows returns the sum in the kind's arithmetic: its bit pattern is
`c + x` reduced modulo `2 ^ bits`, and the integer it stands for is congruent to the
sum of the integers `c` and `x` stand for. -/
theorem add_returns_prior_and_stores_sum (dm : DataModel) (k : Kind)
    (m : Memory (Val dm k)) (ref : Nat) (c x : Val dm k)
    (h : m ref = some c) (hk : k ≠ Kind.bool) :
    ∃ m1 r, sa_add dm k m ref x = some (c, m1) ∧ sa_load dm k m1 ref = some (r, m1) ∧
      r.val = (c.val + x.val) % 2 ^ k.bits dm ∧
      r.toInt % 2 ^ k.bits dm = (c.toInt + x.toInt) % 2 ^ k.bits dm := by
  refine ⟨m.write ref (Val.add c x), Val.add c x, ?_, ?_, Val.add_val c x hk, ?_⟩
  · exact sa_fetch_live dm k Action.add m ref x c h
  · exact sa_load_live dm k _ ref _ (Memory.write_same m ref _)
  · rw [Val.toInt_emod, Val.add_val c x hk, Int.add_emod, Val.toInt_emod, Val.toInt_emod]
    push_cast
    rfl

/-- C4 at the input of the specification: `create(10)`; `add(h, 3)` returns `10`;
the load that follows returns `13`. -/
theorem add_returns_prior_and_stores_sum_witness :
    sa_create DataModel.LP64 Kind.int32 Memory.empty 16 10
      = some (16, Memory.empty.write 16 10) ∧
    Kind.int32 ≠ Kind.bool ∧
    ∃ m1, sa_add DataModel.LP64 Kind.int32 (Memory.empty.write 16 10) 16 3 = some (10, m1) ∧
      sa_load DataModel.LP64 Kind.int32 m1 16 = some (13, m1) := by
  refine ⟨rfl, by decide, ?_⟩
  obtain ⟨m1, r, h1, h2, h3, _⟩ :=
    add_returns_prior_and_stores_sum DataModel.LP64 Kind.int32 (Memory.empty.write 16 10) 16
      10 3 rfl (by decide)
  have hr : r = 13 := Fin.ext h3
  subst hr
  exact ⟨m1, h1, h2⟩

/-- C5: on a live cell of an integer kind holding `c`, each of `sub`, `or`, `xor`
and `and` returns `c` and leaves the cell holding `c op x`: for `sub` the difference
modulo `2 ^ bits`, for the others the bitwise or, exclusive or and conjunction of
the two bit patterns. -/
theorem fetch_ops_return_prior_and_store_result (dm : DataModel) (k : Kind)
    (m : Memory (Val dm k)) (ref : Nat) (c x : Val dm k)
    (h : m ref = some c) (hk : k ≠ Kind.bool) :
    (∃ m1 r, sa_sub dm k m ref x = some (c, m1) ∧ sa_load dm k m1 ref = some (r, m1) ∧
      (r.val : Int) = ((c.val : Int) - (x.val : Int)) % 2 ^ k.bits dm) ∧
    (∃ m1 r, sa_or dm k m ref x = some (c, m1) ∧ sa_load dm k m1 ref = some (r, m1) ∧
      r.val = c.val ||| x.val) ∧
    (∃ m1 r, sa_xor dm k m ref x = some (c, m1) ∧ sa_load dm k m1 ref = some (r, m1) ∧
      r.val = c.val ^^^ x.val) ∧
    (∃ m1 r, sa_and dm k m ref x = some (c, m1) ∧ sa_load dm k m1 ref = some (r, m1) ∧
      r.val = c.val &&& x.val) := by
  refine ⟨⟨m.write ref (Val.sub c x), Val.sub c x, ?_, ?_, Val.sub_val c x hk⟩,
    ⟨m.write ref (Val.or c x), Val.or c x, ?_, ?_, Val.or_val c x⟩,
    ⟨m.write ref (Val.xor c x), Val.xor c x, ?_, ?_, Val.xor_val c x⟩,
    ⟨m.write ref (Val.and c x), Val.and c x, ?_, ?_, Val.and_val c x⟩⟩
  · exact sa_fetch_live dm k Action.sub m ref x c h
  · exact sa_load_live dm k _ ref _ (Memory.write_same m ref _)
  · exact sa_fetch_live dm k Action.or m ref x c h
  · exact sa_load_live dm k _ ref _ (Memory.write_same m ref _)
  · exact sa_fetch_live dm k Action.xor m ref x c h
  · exact sa_load_live dm k _ ref _ (Memory.write_same m ref _)
  · exact sa_fetch_live dm k Action.and m ref x c h
  · exact sa_load_live dm k _ ref _ (Memory.write_same m ref _)

/-- C5 at a concrete input: a `UInt8` cell holding `12` with operand `10`, where
`sub` leaves `2`, `or` leaves `14`, `xor` leaves `6` and `and` leaves `8`. -/
theorem fetch_ops_return_prior_and_store_result_witness :
    (Memory.empty.write 16 (12 : Val DataModel.LP64 Kind.uint8)) 16 = some 12 ∧
    Kind.uint8 ≠ Kind.bool ∧
    (∃ m1 r, sa_sub DataModel.LP64 Kind.uint8 (Memory.empty.write 16 12) 16 10
        = some (12, m1) ∧
      sa_load DataModel.LP64 Kind.uint8 m1 16 = some (r, m1) ∧ (r.val : Int) = 2) ∧
    (∃ m1 r, sa_or DataModel.LP64 Kind.uint8 (Memory.empty.write 16 12) 16 10
        = some (12, m1) ∧
      sa_load DataModel.LP64 Kind.uint8 m1 16 = some (r, m1) ∧ r.val = 14) ∧
    (∃ m1 r, sa_xor DataModel.LP64 Kind.uint8 (Memory.empty.write 16 12) 16 10
        = some (12, m1) ∧
      sa_load DataModel.LP64 Kind.uint8 m1 16 = some (r, m1) ∧ r.val = 6) ∧
    (∃ m1 r, sa_and DataModel.LP64 Kind.uint8 (Memory.empty.write 16 12) 16 10
        = some (12, m1) ∧
      sa_load DataModel.LP64 Kind.uint8 m1 16 = some (r, m1) ∧ r.val = 8) :=
  ⟨rfl, by decide,
    fetch_ops_return_prior_and_store_result DataModel.LP64 Kind.uint8
      (Memory.empty.write 16 12) 16 12 10 rfl (by decide)⟩

/-! ## Round trip, store, load -/

/-- C6: when the allocation succeeds, a cell created with `v` loads `v`, through
`load` and through `load_explicit` under each of the six memory orders; for every
scalar kind and for the pointer cell. -/
theorem load_after_create (dm : DataModel) (k : Kind) (m : Memory (Val dm k))
    (malloc : Nat) (v : Val dm k) (mp : Memory (UIntPtr dm)) (p : UIntPtr dm)
    (o : SAMemoryOrder) (hm : malloc ≠ 0) :
    (∃ h m1, sa_create dm k m malloc v = some (h, m1) ∧
      sa_load dm k m1 h = some (v, m1) ∧ sa_load_explicit dm k m1 h o = some (v, m1)) ∧
    (∃ h m1, sa_ref_create dm mp malloc p = some (h, m1) ∧
      sa_ref_load dm m1 h = some (p, m1) ∧
      sa_ref_load_explicit dm m1 h o = some (p, m1)) :=
  ⟨⟨_, _, sa_create_ok dm k m malloc v hm,
      sa_load_live dm k _ malloc v (Memory.write_same m malloc v),
      sa_load_explicit_live dm k _ malloc o v (Memory.write_same m malloc v)⟩,
    ⟨_, _, sa_ref_create_ok dm mp malloc p hm,
      sa_ref_load_live dm _ malloc p (Memory.write_same mp malloc p),
      sa_ref_load_explicit_live dm _ malloc o p (Memory.write_same mp malloc p)⟩⟩

/-- C6 at a concrete input: a boolean cell created with `true` and a pointer cell
created with the address `4096`, both at address `16`, read back with order
`Consume`. -/
theorem load_after_create_witness :
    (16 : Nat) ≠ 0 ∧
    (∃ h m1, sa_create DataModel.LP64 Kind.bool Memory.empty 16 1 = some (h, m1) ∧
      sa_load DataModel.LP64 Kind.bool m1 h = some (1, m1) ∧
      sa_load_explicit DataModel.LP64 Kind.bool m1 h SAMemoryOrder.Consume = some (1, m1)) ∧
    (∃ h m1, sa_ref_create DataModel.LP64 Memory.empty 16 4096 = some (h, m1) ∧
      sa_ref_load DataModel.LP64 m1 h = some (4096, m1) ∧
      sa_ref_load_explicit DataModel.LP64 m1 h SAMemoryOrder.Consume = some (4096, m1)) :=
  ⟨by decide,
    load_after_create DataModel.LP64 Kind.bool Memory.empty 16 1 Memory.empty 4096
      SAMemoryOrder.Consume (by decide)⟩

/-- C7: on a live cell, whatever value `c` it holds, `store(h, v)` and
`store_explicit(h, v, order)` under every order complete, and a load that follows
returns `v`; for every scalar kind, and for the pointer cell through the store it
has, `sa_ref_store_explicit`. -/
theorem load_after_store (dm : DataModel) (k : Kind) (m : Memory (Val dm k)) (ref : Nat)
    (c v : Val dm k) (mp : Memory (UIntPtr dm)) (refp : Nat) (cp vp : UIntPtr dm)
    (order : SAMemoryOrder) (h : m ref = some c) (hp : mp refp = some cp) :
    (∃ m1, sa_store dm k m ref v = some m1 ∧ sa_load dm k m1 ref = some (v, m1)) ∧
    (∃ m1, sa_store_explicit dm k m ref v order = some m1 ∧
      sa_load dm k m1 ref = some (v, m1)) ∧
    (∃ m1, sa_ref_store_explicit dm mp refp vp order = some m1 ∧
      sa_ref_load dm m1 refp = some (vp, m1)) :=
  ⟨⟨_, sa_store_live dm k m ref v c h,
      sa_load_live dm k _ ref v (Memory.write_same m ref v)⟩,
    ⟨_, sa_store_explicit_live dm k m ref v order c h,
      sa_load_live dm k _ ref v (Memory.write_same m ref v)⟩,
    ⟨_, sa_ref_store_explicit_live dm mp refp vp order cp hp,
      sa_ref_load_live dm _ refp vp (Memory.write_same mp refp vp)⟩⟩

/-- C7 at a concrete input: an `Int64` cell holding `5` and a pointer cell holding
`4096`, each overwritten. -/
theorem load_after_store_witness :
    (Memory.empty.write 16 (5 : Val DataModel.LP64 Kind.int64)) 16 = some 5 ∧
    (Memory.empty.write 32 (4096 : UIntPtr DataModel.LP64)) 32 = some 4096 ∧
    (∃ m1, sa_store DataModel.LP64 Kind.int64 (Memory.empty.write 16 5) 16 77 = some m1 ∧
      sa_load DataModel.LP64 Kind.int64 m1 16 = some (77, m1)) ∧
    (∃ m1, sa_store_explicit DataModel.LP64 Kind.int64 (Memory.empty.write 16 5) 16 77
        SAMemoryOrder.Release = some m1 ∧
      sa_load DataModel.LP64 Kind.int64 m1 16 = some (77, m1)) ∧
    (∃ m1, sa_ref_store_explicit DataModel.LP64 (Memory.empty.write 32 4096) 32 8192
        SAMemoryOrder.Release = some m1 ∧
      sa_ref_load DataModel.LP64 m1 32 = some (8192, m1)) :=
  ⟨rfl, rfl,
    load_after_store DataModel.LP64 Kind.int64 (Memory.empty.write 16 5) 16 5 77
      (Memory.empty.write 32 4096) 32 4096 8192 SAMemoryOrder.Release rfl rfl⟩

/-- C8: on a live cell holding `c`, `load` and `load_explicit` under every order
return `c` together with the memory they were given, unchanged, so a second load
returns `c` again; for every scalar kind and for the pointer cell. -/
theorem load_does_not_mutate (dm : DataModel) (k : Kind) (m : Memory (Val dm k)) (ref : Nat)
    (c : Val dm k) (mp : Memory (UIntPtr dm)) (refp : Nat) (cp : UIntPtr dm)
    (order : SAMemoryOrder) (h : m ref = some c) (hp : mp refp = some cp) :
    (∃ v1 m1 v2 m2, sa_load dm k m ref = some (v1, m1) ∧ m1 = m ∧ m1 ref = some c ∧
      sa_load dm k m1 ref = some (v2, m2) ∧ v2 = v1 ∧ m2 = m) ∧
    (∃ v1 m1 v2 m2, sa_load_explicit dm k m ref order = some (v1, m1) ∧ m1 = m ∧
      m1 ref = some c ∧
      sa_load_explicit dm k m1 ref order = some (v2, m2) ∧ v2 = v1 ∧ m2 = m) ∧
    (∃ v1 m1 v2 m2, sa_ref_load dm mp refp = some (v1, m1) ∧ m1 = mp ∧
      m1 refp = some cp ∧
      sa_ref_load dm m1 refp = some (v2, m2) ∧ v2 = v1 ∧ m2 = mp) ∧
    (∃ v1 m1 v2 m2, sa_ref_load_explicit dm mp refp order = some (v1, m1) ∧ m1 = mp ∧
      m1 refp = some cp ∧
      sa_ref_load_explicit dm m1 refp order = some (v2, m2) ∧ v2 = v1 ∧ m2 = mp) :=
  ⟨⟨c, m, c, m, sa_load_live dm k m ref c h, rfl, h, sa_load_live dm k m ref c h, rfl, rfl⟩,
    ⟨c, m, c, m, sa_load_explicit_live dm k m ref order c h, rfl, h,
      sa_load_explicit_live dm k m ref order c h, rfl, rfl⟩,
    ⟨cp, mp, cp, mp, sa_ref_load_live dm mp refp cp hp, rfl, hp,
      sa_ref_load_live dm mp refp cp hp, rfl, rfl⟩,
    ⟨cp, mp, cp, mp, sa_ref_load_explicit_live dm mp refp order cp hp, rfl, hp,
      sa_ref_load_explicit_live dm mp refp order cp hp, rfl, rfl⟩⟩

/-- C8 at a concrete input: a `UInt16` cell holding `513` loaded twice. -/
theorem load_does_not_mutate_witness :
    (Memory.empty.write 16 (513 : Val DataModel.ILP32 Kind.uint16)) 16 = some 513 ∧
    (Memory.empty.write 32 (4096 : UIntPtr DataModel.ILP32)) 32 = some 4096 ∧
    (∃ v1 m1 v2 m2,
      sa_load DataModel.ILP32 Kind.uint16 (Memory.empty.write 16 513) 16 = some (v1, m1) ∧
      m1 = Memory.empty.write 16 513 ∧ m1 16 = some 513 ∧
      sa_load DataModel.ILP32 Kind.uint16 m1 16 = some (v2, m2) ∧ v2 = v1 ∧
      m2 = Memory.empty.write 16 513) :=
  ⟨rfl, rfl,
    (load_does_not_mutate DataModel.ILP32 Kind.uint16 (Memory.empty.write 16 513) 16 513
      (Memory.empty.write 32 4096) 32 4096 SAMemoryOrder.Acquire rfl rfl).1⟩

/-! ## Default forms -/

theorem SAMemoryOrder.rawValue_eq_seq_cst (o : SAMemoryOrder) :
    memory_order_seq_cst = o.rawValue ↔ o = SAMemoryOrder.SequentiallyConsistent := by
  cases o <;> decide

/-- Running the call a default function makes gives what the function gives. -/
theorem default_call_run (dm : DataModel) (k : Kind) (action : Action) (spurious : Bool)
    (m : Memory (Val dm k)) (ref : Nat) (value expected desired : Val dm k) :
    (sa_store_call dm k ref value).run spurious m
      = (sa_store dm k m ref value).map (fun m1 => (Returned.void, m1)) ∧
    (sa_load_call dm k ref).run spurious m
      = (sa_load dm k m ref).map (fun r => (Returned.value r.1, r.2)) ∧
    (sa_exchange_call dm k ref value).run spurious m
      = (sa_exchange dm k m ref value).map (fun r => (Returned.value r.1, r.2)) ∧
    (sa_compare_strong_call dm k ref expected desired).run spurious m
      = (sa_compare_strong dm k m ref expected desired).map
          (fun r => (Returned.flag r.1, r.2)) ∧
    (sa_compare_weak_call dm k ref expected desired).run spurious m
      = (sa_compare_weak dm k spurious m ref expected desired).map
          (fun r => (Returned.flag r.1, r.2)) ∧
    (sa_fetch_call dm k action ref value).run spurious m
      = (sa_fetch dm k action m ref value).map (fun r => (Returned.value r.1, r.2)) := by
  refine ⟨rfl, rfl, rfl, ?_, ?_, rfl⟩
  · simp only [sa_compare_strong_call, sa_compare_strong, C11Call.run,
      atomic_compare_exchange_strong]
    cases atomic_compare_exchange_strong_explicit m (SA_POINTER_CAST ref) expected desired
      memory_order_seq_cst memory_order_seq_cst <;> rfl
  · simp only [sa_compare_weak_call, sa_compare_weak, C11Call.run,
      atomic_compare_exchange_weak]
    cases atomic_compare_exchange_weak_explicit spurious m (SA_POINTER_CAST ref) expected
      desired memory_order_seq_cst memory_order_seq_cst <;> rfl

/-- Running the call an explicit function makes gives what the function gives. -/
theorem explicit_call_run (dm : DataModel) (k : Kind) (action : Action) (spurious : Bool)
    (m : Memory (Val dm k)) (ref : Nat) (value expected desired : Val dm k)
    (o s f : SAMemoryOrder) :
    (sa_store_explicit_call dm k ref value o).run spurious m
      = (sa_store_explicit dm k m ref value o).map (fun m1 => (Returned.void, m1)) ∧
    (sa_load_explicit_call dm k ref o).run spurious m
      = (sa_load_explicit dm k m ref o).map (fun r => (Returned.value r.1, r.2)) ∧
    (sa_exchange_explicit_call dm k ref value o).run spurious m
      = (sa_exchange_explicit dm k m ref value o).map
          (fun r => (Returned.value r.1, r.2)) ∧
    (sa_compare_strong_explicit_call dm k ref expected desired s f).run spurious m
      = (sa_compare_strong_explicit dm k m ref expected desired s f).map
          (fun r => (Returned.flag r.1, r.2)) ∧
    (sa_compare_weak_explicit_call dm k ref expected desired s f).run spurious m
      = (sa_compare_weak_explicit dm k spurious m ref expected desired s f).map
          (fun r => (Returned.flag r.1, r.2)) ∧
    (sa_fetch_explicit_call dm k action ref value o).run spurious m
      = (sa_fetch_explicit dm k action m ref value o).map
          (fun r => (Returned.value r.1, r.2)) := by
  refine ⟨rfl, rfl, rfl, ?_, ?_, rfl⟩
  · simp only [sa_compare_strong_explicit_call, sa_compare_strong_explicit, C11Call.run]
    cases atomic_compare_exchange_strong_explicit m (SA_POINTER_CAST ref) expected desired
      s.rawValue f.rawValue <;> rfl
  · simp only [sa_compare_weak_explicit_call, sa_compare_weak_explicit, C11Call.run]
    cases atomic_compare_exchange_weak_explicit spurious m (SA_POINTER_CAST ref) expected
      desired s.rawValue f.rawValue <;> rfl

/-- C9: for every scalar kind and each of store, load, exchange, compare_strong,
compare_weak and the five fetch operations add, sub, or, xor and and:
the builtin call the default form makes is the call the explicit form makes with an
order `o` exactly when `o` is `SequentiallyConsistent` (for the compare forms, when
both the success and the fail order are); running the call of a form, default or
explicit, gives what the form gives; and the default form gives the same result and
the same memory after as the explicit form called with `SequentiallyConsistent`, on
every input. -/
theorem default_form_is_sequentially_consistent (dm : DataModel) (k : Kind)
    (action : Action) (spurious : Bool) (m : Memory (Val dm k)) (ref : Nat)
    (value expected desired : Val dm k) (o s f : SAMemoryOrder) :
    ((sa_store_call dm k ref value = sa_store_explicit_call dm k ref value o
        ↔ o = SAMemoryOrder.SequentiallyConsistent) ∧
      (sa_load_call dm k ref = sa_load_explicit_call dm k ref o
        ↔ o = SAMemoryOrder.SequentiallyConsistent) ∧
      (sa_exchange_call dm k ref value = sa_exchange_explicit_call dm k ref value o
        ↔ o = SAMemoryOrder.SequentiallyConsistent) ∧
      (sa_compare_strong_call dm k ref expected desired
          = sa_compare_strong_explicit_call dm k ref expected desired s f
        ↔ s = SAMemoryOrder.SequentiallyConsistent ∧
          f = SAMemoryOrder.SequentiallyConsistent) ∧
      (sa_compare_weak_call dm k ref expected desired
          = sa_compare_weak_explicit_call dm k ref expected desired s f
        ↔ s = SAMemoryOrder.SequentiallyConsistent ∧
          f = SAMemoryOrder.SequentiallyConsistent) ∧
      (sa_fetch_call dm k action ref value = sa_fetch_explicit_call dm k action ref value o
        ↔ o = SAMemoryOrder.SequentiallyConsistent)) ∧
    ((sa_store_call dm k ref value).run spurious m
        = (sa_store dm k m ref value).map (fun m1 => (Returned.void, m1)) ∧
      (sa_load_call dm k ref).run spurious m
        = (sa_load dm k m ref).map (fun r => (Returned.value r.1, r.2)) ∧
      (sa_exchange_call dm k ref value).run spurious m
        = (sa_exchange dm k m ref value).map (fun r => (Returned.value r.1, r.2)) ∧
      (sa_compare_strong_call dm k ref expected desired).run spurious m
        = (sa_compare_strong dm k m ref expected desired).map
            (fun r => (Returned.flag r.1, r.2)) ∧
      (sa_compare_weak_call dm k ref expected desired).run spurious m
        = (sa_compare_weak dm k spurious m ref expected desired).map
            (fun r => (Returned.flag r.1, r.2)) ∧
      (sa_fetch_call dm k action ref value).run spurious m
        = (sa_fetch dm k action m ref value).map (fun r => (Returned.value r.1, r.2))) ∧
    ((sa_store_explicit_call dm k ref value o).run spurious m
        = (sa_store_explicit dm k m ref value o).map (fun m1 => (Returned.void, m1)) ∧
      (sa_load_explicit_call dm k ref o).run spurious m
        = (sa_load_explicit dm k m ref o).map (fun r => (Returned.value r.1, r.2)) ∧
      (sa_exchange_explicit_call dm k ref value o).run spurious m
        = (sa_exchange_explicit dm k m ref value o).map
            (fun r => (Returned.value r.1, r.2)) ∧
      (sa_compare_strong_explicit_call dm k ref expected desired s f).run spurious m
        = (sa_compare_strong_explicit dm k m ref expected desired s f).map
            (fun r => (Returned.flag r.1, r.2)) ∧
      (sa_compare_weak_explicit_call dm k ref expected desired s f).run spurious m
        = (sa_compare_weak_explicit dm k spurious m ref expected desired s f).map
            (fun r => (Returned.flag r.1, r.2)) ∧
      (sa_fetch_explicit_call dm k action ref value o).run spurious m
        = (sa_fetch_explicit dm k action m ref value o).map
            (fun r => (Returned.value r.1, r.2))) ∧
    (sa_store dm k m ref value
        = sa_store_explicit dm k m ref value SAMemoryOrder.SequentiallyConsistent ∧
      sa_load dm k m ref
        = sa_load_explicit dm k m ref SAMemoryOrder.SequentiallyConsistent ∧
      sa_exchange dm k m ref value
        = sa_exchange_explicit dm k m ref value SAMemoryOrder.SequentiallyConsistent ∧
      sa_compare_strong dm k m ref expected desired
        = sa_compare_strong_explicit dm k m ref expected desired
            SAMemoryOrder.SequentiallyConsistent SAMemoryOrder.SequentiallyConsistent ∧
      sa_compare_weak dm k spurious m ref expected desired
        = sa_compare_weak_explicit dm k spurious m ref expected desired
            SAMemoryOrder.SequentiallyConsistent SAMemoryOrder.SequentiallyConsistent ∧
      sa_add dm k m ref value
        = sa_fetch_explicit dm k Action.add m ref value
            SAMemoryOrder.SequentiallyConsistent ∧
      sa_sub dm k m ref value
        = sa_fetch_explicit dm k Action.sub m ref value
            SAMemoryOrder.SequentiallyConsistent ∧
      sa_or dm k m ref value
        = sa_fetch_explicit dm k Action.or m ref value
            SAMemoryOrder.SequentiallyConsistent ∧
      sa_xor dm k m ref value
        = sa_fetch_explicit dm k Action.xor m ref value
            SAMemoryOrder.SequentiallyConsistent ∧
      sa_and dm k m ref value
        = sa_fetch_explicit dm k Action.and m ref value
            SAMemoryOrder.SequentiallyConsistent) := by
  have hs := SAMemoryOrder.rawValue_eq_seq_cst s
  have hf := SAMemoryOrder.rawValue_eq_seq_cst f
  refine ⟨⟨?_, ?_, ?_, ?_, ?_, ?_⟩,
    default_call_run dm k action spurious m ref value expected desired,
    explicit_call_run dm k action spurious m ref value expected desired o s f,
    ⟨rfl, rfl, rfl, rfl, rfl, rfl, rfl, rfl, rfl, rfl⟩⟩
  · simp only [sa_store_call, sa_store_explicit_call, C11Call.store.injEq, true_and]
    exact SAMemoryOrder.rawValue_eq_seq_cst o
  · simp only [sa_load_call, sa_load_explicit_call, C11Call.load.injEq, true_and]
    exact SAMemoryOrder.rawValue_eq_seq_cst o
  · simp only [sa_exchange_call, sa_exchange_explicit_call, C11Call.exchange.injEq, true_and]
    exact SAMemoryOrder.rawValue_eq_seq_cst o
  · simp only [sa_compare_strong_call, sa_compare_strong_explicit_call,
      C11Call.compare_exchange_strong.injEq, true_and]
    rw [hs, hf]
  · simp only [sa_compare_weak_call, sa_compare_weak_explicit_call,
      C11Call.compare_exchange_weak.injEq, true_and]
    rw [hs, hf]
  · simp only [sa_fetch_call, sa_fetch_explicit_call, C11Call.fetch.injEq, true_and]
    exact SAMemoryOrder.rawValue_eq_seq_cst o

/-- C10: AtomicValue.h defines `sa_ref_store_explicit` and no `sa_ref_store`, so the
pointer cell has no default-ordering store; of its other four operations it defines
both forms, and there the default form is the explicit form called with
`SequentiallyConsistent`. -/
theorem ref_cell_has_no_default_store (dm : DataModel) (spurious : Bool)
    (m : Memory (UIntPtr dm)) (ref : Nat) (value expected desired : UIntPtr dm) :
    "sa_ref_store" ∉ atomicValueFunctions ∧
    "sa_ref_store_explicit" ∈ atomicValueFunctions ∧
    sa_ref_load dm m ref
      = sa_ref_load_explicit dm m ref SAMemoryOrder.SequentiallyConsistent ∧
    sa_ref_exchange dm m ref value
      = sa_ref_exchange_explicit dm m ref value SAMemoryOrder.SequentiallyConsistent ∧
    sa_ref_compare_strong dm m ref expected desired
      = sa_ref_compare_strong_explicit dm m ref expected desired
          SAMemoryOrder.SequentiallyConsistent SAMemoryOrder.SequentiallyConsistent ∧
    sa_ref_compare_weak dm spurious m ref expected desired
      = sa_ref_compare_weak_explicit dm spurious m ref expected desired
          SAMemoryOrder.SequentiallyConsistent SAMemoryOrder.SequentiallyConsistent :=
  ⟨by decide, by decide, rfl, rfl, rfl, rfl⟩

/-! ## Compare-and-swap, weak form -/

theorem atomic_compare_exchange_weak_explicit_live {α : Type} [DecidableEq α]
    (spurious : Bool) (m : Memory α) (object : Nat) (expected desired : α)
    (success failure : Int) (c : α) (h : m object = some c) :
    atomic_compare_exchange_weak_explicit spurious m object expected desired success failure =
      some (if c = expected ∧ spurious = false then ((true, expected), m.write object desired)
        else ((false, c), m)) := by
  simp only [atomic_compare_exchange_weak_explicit, h]
  split <;> rfl

theorem sa_compare_weak_explicit_live (dm : DataModel) (k : Kind) (spurious : Bool)
    (m : Memory (Val dm k)) (ref : Nat) (expected desired : Val dm k)
    (success fail : SAMemoryOrder) (c : Val dm k) (h : m ref = some c) :
    sa_compare_weak_explicit dm k spurious m ref expected desired success fail =
      some (decide (c = expected ∧ spurious = false),
        if c = expected ∧ spurious = false then m.write ref desired else m) := by
  simp only [sa_compare_weak_explicit, SA_POINTER_CAST,
    atomic_compare_exchange_weak_explicit_live spurious m ref expected desired _ _ c h]
  by_cases hc : c = expected ∧ spurious = false
  · rw [if_pos hc, if_pos hc]; simp [hc]
  · rw [if_neg hc, if_neg hc]; simp [hc]

theorem sa_compare_weak_live (dm : DataModel) (k : Kind) (spurious : Bool)
    (m : Memory (Val dm k)) (ref : Nat) (expected desired : Val dm k) (c : Val dm k)
    (h : m ref = some c) :
    sa_compare_weak dm k spurious m ref expected desired =
      some (decide (c = expected ∧ spurious = false),
        if c = expected ∧ spurious = false then m.write ref desired else m) := by
  simp only [sa_compare_weak, SA_POINTER_CAST, atomic_compare_exchange_weak,
    atomic_compare_exchange_weak_explicit_live spurious m ref expected desired _ _ c h]
  by_cases hc : c = expected ∧ spurious = false
  · rw [if_pos hc, if_pos hc]; simp [hc]
  · rw [if_neg hc, if_neg hc]; simp [hc]

theorem sa_ref_compare_weak_explicit_live (dm : DataModel) (spurious : Bool)
    (m : Memory (UIntPtr dm)) (ref : Nat) (expected desired : UIntPtr dm)
    (success fail : SAMemoryOrder) (c : UIntPtr dm) (h : m ref = some c) :
    sa_ref_compare_weak_explicit dm spurious m ref expected desired success fail =
      some (decide (c = expected ∧ spurious = false),
        if c = expected ∧ spurious = false then m.write ref desired else m) := by
  simp only [sa_ref_compare_weak_explicit, SA_POINTER_CAST, toUIntPtr,
    atomic_compare_exchange_weak_explicit_live spurious m ref expected desired _ _ c h]
  by_cases hc : c = expected ∧ spurious = false
  · rw [if_pos hc, if_pos hc]; simp [hc]
  · rw [if_neg hc, if_neg hc]; simp [hc]

theorem sa_ref_compare_weak_live (dm : DataModel) (spurious : Bool)
    (m : Memory (UIntPtr dm)) (ref : Nat) (expected desired : UIntPtr dm) (c : UIntPtr dm)
    (h : m ref = some c) :
    sa_ref_compare_weak dm spurious m ref expected desired =
      some (decide (c = expected ∧ spurious = false),
        if c = expected ∧ spurious = false then m.write ref desired else m) := by
  simp only [sa_ref_compare_weak, SA_POINTER_CAST, toUIntPtr, atomic_compare_exchange_weak,
    atomic_compare_exchange_weak_explicit_live spurious m ref expected desired _ _ c h]
  by_cases hc : c = expected ∧ spurious = false
  · rw [if_pos hc, if_pos hc]; simp [hc]
  · rw [if_neg hc, if_neg hc]; simp [hc]

/-- The contract of one weak compare on a cell that held `c` in memory `m`: stated
once for the four functions that share it. `load` is the load of the cell at
hand. -/
theorem weak_contract_of_result {α : Type} [DecidableEq α] (spurious : Bool) (m : Memory α)
    (ref : Nat) (c expected desired : α) (load : Memory α → Option (α × Memory α))
    (hload : ∀ (m1 : Memory α) (v : α), m1 ref = some v → load m1 = some (v, m1))
    (h : m ref = some c) (b : Bool) (m1 : Memory α)
    (hb : b = decide (c = expected ∧ spurious = false))
    (hm : m1 = if c = expected ∧ spurious = false then m.write ref desired else m) :
    (b = true → c = expected ∧ load m1 = some (desired, m1)) ∧
    (b = false → m1 = m ∧ load m1 = some (c, m1)) ∧
    (c ≠ expected → b = false) ∧
    (spurious = false → (b = true ↔ c = expected)) := by
  subst hb hm
  by_cases hc : c = expected ∧ spurious = false
  · rw [if_pos hc]
    refine ⟨fun _ => ⟨hc.1, hload _ _ (Memory.write_same m ref desired)⟩, ?_, ?_, ?_⟩
    · intro hf; simp [hc] at hf
    · intro hne; exact absurd hc.1 hne
    · intro _; simp [hc]
  · rw [if_neg hc]
    refine ⟨?_, fun _ => ⟨rfl, hload _ _ h⟩, ?_, ?_⟩
    · intro ht; simp [hc] at ht
    · intro _; simp [hc]
    · intro hs
      have hne : ¬ c = expected := fun e => hc ⟨e, hs⟩
      simp [hne]

/-- C13: on a live cell holding `c`, of any scalar kind or the pointer cell, and
whether or not the call fails spuriously, `compare_weak` and `compare_weak_explicit`
(under every order) return a result; when it is `true`, `c` equalled `expected` and
a load that follows returns `desired`; when it is `false`, the memory is the one
before the call and a load still returns `c`; when `c` differs from `expected` it is
`false`; and a call that does not fail spuriously is `true` exactly when `c` equals
`expected`, as the strong form. -/
theorem compare_weak_contract (dm : DataModel) (k : Kind) (spurious : Bool)
    (m : Memory (Val dm k)) (ref : Nat) (c expected desired : Val dm k)
    (mp : Memory (UIntPtr dm)) (refp : Nat) (cp expectedp desiredp : UIntPtr dm)
    (success fail : SAMemoryOrder)
    (h : m ref = some c) (hp : mp refp = some cp) :
    (∃ b m1, sa_compare_weak dm k spurious m ref expected desired = some (b, m1) ∧
      (b = true → c = expected ∧ sa_load dm k m1 ref = some (desired, m1)) ∧
      (b = false → m1 = m ∧ sa_load dm k m1 ref = some (c, m1)) ∧
      (c ≠ expected → b = false) ∧
      (spurious = false → (b = true ↔ c = expected))) ∧
    (∃ b m1, sa_compare_weak_explicit dm k spurious m ref expected desired success fail
        = some (b, m1) ∧
      (b = true → c = expected ∧ sa_load dm k m1 ref = some (desired, m1)) ∧
      (b = false → m1 = m ∧ sa_load dm k m1 ref = some (c, m1)) ∧
      (c ≠ expected → b = false) ∧
      (spurious = false → (b = true ↔ c = expected))) ∧
    (∃ b m1, sa_ref_compare_weak dm spurious mp refp expectedp desiredp = some (b, m1) ∧
      (b = true → cp = expectedp ∧ sa_ref_load dm m1 refp = some (desiredp, m1)) ∧
      (b = false → m1 = mp ∧ sa_ref_load dm m1 refp = some (cp, m1)) ∧
      (cp ≠ expectedp → b = false) ∧
      (spurious = false → (b = true ↔ cp = expectedp))) ∧
    (∃ b m1, sa_ref_compare_weak_explicit dm spurious mp refp expectedp desiredp success fail
        = some (b, m1) ∧
      (b = true → cp = expectedp ∧ sa_ref_load dm m1 refp = some (desiredp, m1)) ∧
      (b = false → m1 = mp ∧ sa_ref_load dm m1 refp = some (cp, m1)) ∧
      (cp ≠ expectedp → b = false) ∧
      (spurious = false → (b = true ↔ cp = expectedp))) :=
  ⟨⟨_, _, sa_compare_weak_live dm k spurious m ref expected desired c h,
      weak_contract_of_result spurious m ref c expected desired (fun m1 => sa_load dm k m1 ref)
        (fun m1 v hv => sa_load_live dm k m1 ref v hv) h _ _ rfl rfl⟩,
    ⟨_, _, sa_compare_weak_explicit_live dm k spurious m ref expected desired success fail c h,
      weak_contract_of_result spurious m ref c expected desired (fun m1 => sa_load dm k m1 ref)
        (fun m1 v hv => sa_load_live dm k m1 ref v hv) h _ _ rfl rfl⟩,
    ⟨_, _, sa_ref_compare_weak_live dm spurious mp refp expectedp desiredp cp hp,
      weak_contract_of_result spurious mp refp cp expectedp desiredp
        (fun m1 => sa_ref_load dm m1 refp)
        (fun m1 v hv => sa_ref_load_live dm m1 refp v hv) hp _ _ rfl rfl⟩,
    ⟨_, _, sa_ref_compare_weak_explicit_live dm spurious mp refp expectedp desiredp success
        fail cp hp,
      weak_contract_of_result spurious mp refp cp expectedp desiredp
        (fun m1 => sa_ref_load dm m1 refp)
        (fun m1 v hv => sa_ref_load_live dm m1 refp v hv) hp _ _ rfl rfl⟩⟩

/-- C13 at a concrete input: an `Int32` cell holding `5`, compared against `5` with
desired `9` by a call that fails spuriously. -/
theorem compare_weak_contract_witness :
    (Memory.empty.write 16 (5 : Val DataModel.LP64 Kind.int32)) 16 = some 5 ∧
    (Memory.empty.write 32 (5 : UIntPtr DataModel.LP64)) 32 = some 5 ∧
    (∃ b m1, sa_compare_weak DataModel.LP64 Kind.int32 true (Memory.empty.write 16 5) 16 5 9
        = some (b, m1) ∧
      (b = true → (5 : Val DataModel.LP64 Kind.int32) = 5 ∧
        sa_load DataModel.LP64 Kind.int32 m1 16 = some (9, m1)) ∧
      (b = false → m1 = Memory.empty.write 16 5 ∧
        sa_load DataModel.LP64 Kind.int32 m1 16 = some (5, m1)) ∧
      ((5 : Val DataModel.LP64 Kind.int32) ≠ 5 → b = false) ∧
      (true = false → (b = true ↔ (5 : Val DataModel.LP64 Kind.int32) = 5))) :=
  ⟨rfl, rfl,
    (compare_weak_contract DataModel.LP64 Kind.int32 true (Memory.empty.write 16 5) 16
      5 5 9 (Memory.empty.write 32 5) 32 5 5 9 SAMemoryOrder.AcquireAndRelease
      SAMemoryOrder.Relaxed rfl rfl).1⟩

/-! ## The memory-order enumeration -/

/-- C14: `SAMemoryOrder` has exactly the six constants Relaxed, Consume, Acquire,
Release, AcquireAndRelease and SequentiallyConsistent; their integer values are
strictly increasing in that order, hence pairwise distinct, and the value of
SequentiallyConsistent is the greatest. -/
theorem memory_order_values_increasing (o o1 o2 : SAMemoryOrder) :
    SAMemoryOrder.all.length = 6 ∧
    SAMemoryOrder.all.Nodup ∧
    o ∈ SAMemoryOrder.all ∧
    List.Pairwise (fun a b => a < b) (SAMemoryOrder.all.map SAMemoryOrder.rawValue) ∧
    (o1.rawValue = o2.rawValue → o1 = o2) ∧
    o.rawValue ≤ SAMemoryOrder.SequentiallyConsistent.rawValue ∧
    (o.rawValue = SAMemoryOrder.SequentiallyConsistent.rawValue →
      o = SAMemoryOrder.SequentiallyConsistent) := by
  refine ⟨rfl, by decide, ?_, by decide, ?_, ?_, ?_⟩
  · cases o <;> decide
  · cases o1 <;> cases o2 <;> decide
  · cases o <;> decide
  · cases o <;> decide

/-! ## Independence of the memory order -/

/-- C17: on one cell and one thread, every explicit operation (store, load,
exchange, compare strong and weak, and the five fetch operations; scalar kinds and
pointer cell) gives the same result and the same memory after for any two choices
of its memory-order arguments; for the weak compare, at the same answer to whether
the call fails spuriously. -/
theorem explicit_result_independent_of_order (dm : DataModel) (k : Kind) (action : Action)
    (spurious : Bool) (m : Memory (Val dm k)) (ref : Nat) (value expected desired : Val dm k)
    (mp : Memory (UIntPtr dm)) (refp : Nat) (valuep expectedp desiredp : UIntPtr dm)
    (o1 o2 s1 f1 s2 f2 : SAMemoryOrder) :
    (sa_store_explicit dm k m ref value o1 = sa_store_explicit dm k m ref value o2 ∧
      sa_load_explicit dm k m ref o1 = sa_load_explicit dm k m ref o2 ∧
      sa_exchange_explicit dm k m ref value o1 = sa_exchange_explicit dm k m ref value o2 ∧
      sa_compare_strong_explicit dm k m ref expected desired s1 f1
        = sa_compare_strong_explicit dm k m ref expected desired s2 f2 ∧
      sa_compare_weak_explicit dm k spurious m ref expected desired s1 f1
        = sa_compare_weak_explicit dm k spurious m ref expected desired s2 f2 ∧
      sa_fetch_explicit dm k action m ref value o1
        = sa_fetch_explicit dm k action m ref value o2) ∧
    (sa_ref_store_explicit dm mp refp valuep o1 = sa_ref_store_explicit dm mp refp valuep o2 ∧
      sa_ref_load_explicit dm mp refp o1 = sa_ref_load_explicit dm mp refp o2 ∧
      sa_ref_exchange_explicit dm mp refp valuep o1
        = sa_ref_exchange_explicit dm mp refp valuep o2 ∧
      sa_ref_compare_strong_explicit dm mp refp expectedp desiredp s1 f1
        = sa_ref_compare_strong_explicit dm mp refp expectedp desiredp s2 f2 ∧
      sa_ref_compare_weak_explicit dm spurious mp refp expectedp desiredp s1 f1
        = sa_ref_compare_weak_explicit dm spurious mp refp expectedp desiredp s2 f2) :=
  ⟨⟨rfl, rfl, rfl, rfl, rfl, rfl⟩, ⟨rfl, rfl, rfl, rfl, rfl⟩⟩

/-! ## Boolean cells

What `Val.add` and `Val.sub` give on the boolean kind, under the reading of the
fetch functions on `atomic_bool` fixed with their definitions: `or` for `add`,
exclusive or for `sub`. -/

theorem Kind.bits_pos (k : Kind) (dm : DataModel) : 0 < k.bits dm := by
  cases k <;> cases dm <;> decide

theorem Val.add_bool_val (dm : DataModel) (c b : Val dm Kind.bool) :
    (Val.add c b).val = c.val ||| b.val := by
  have hc : c.val < 2 := c.isLt
  have hb : b.val < 2 := b.isLt
  have h2 : 2 ^ Kind.bool.bits dm = 2 := rfl
  simp only [Val.add, if_true, Val.ofBool, h2]
  generalize c.val = cv at hc
  generalize b.val = bv at hb
  interval_cases cv <;> interval_cases bv <;> decide

theorem Val.sub_bool_val (dm : DataModel) (c b : Val dm Kind.bool) :
    (Val.sub c b).val = c.val ^^^ b.val := by
  have hc : c.val < 2 := c.isLt
  have hb : b.val < 2 := b.isLt
  have h2 : 2 ^ Kind.bool.bits dm = 2 := rfl
  simp only [Val.sub, if_true, Val.ofBool, h2]
  generalize c.val = cv at hc
  generalize b.val = bv at hb
  interval_cases cv <;> interval_cases bv <;> decide

theorem Val.bool_val_zero_or_one (dm : DataModel) (v : Val dm Kind.bool) :
    v.val = 0 ∨ v.val = 1 := by
  have hv : v.val < 2 := v.isLt
  omega

/-! ## Allocation failure -/

theorem sa_create_outcome_toOption (dm : DataModel) (k : Kind) (m : Memory (Val dm k))
    (malloc : Nat) (v : Val dm k) :
    (sa_create_outcome dm k m malloc v).toOption = sa_create dm k m malloc v := by
  by_cases hz : malloc = 0 <;>
    simp [sa_create_outcome, sa_create, atomic_init_outcome, atomic_init, hz, Except.toOption]

theorem sa_ref_create_outcome_toOption (dm : DataModel) (m : Memory (UIntPtr dm))
    (malloc : Nat) (p : UIntPtr dm) :
    (sa_ref_create_outcome dm m malloc p).toOption = sa_ref_create dm m malloc p := by
  by_cases hz : malloc = 0 <;>
    simp [sa_ref_create_outcome, sa_ref_create, atomic_init_outcome, atomic_init, hz,
      Except.toOption]

/-- C12, as the code has it: when `malloc` returns the null pointer, `create`
(scalar kinds and pointer cell) ends in a store of the initial value through the
null pointer; it does not end by `abort`, it does not return the null handle, and it
returns no handle at all. Whatever `malloc` returns, the call ends as `sa_create`
says: with the handle and the memory after, or with no defined result. -/
theorem create_on_failed_malloc (dm : DataModel) (k : Kind) (m : Memory (Val dm k))
    (v : Val dm k) (mp : Memory (UIntPtr dm)) (p : UIntPtr dm) (malloc : Nat) :
    (sa_create_outcome dm k m 0 v = Except.error Failure.nullWrite ∧
      sa_create_outcome dm k m 0 v ≠ Except.error Failure.abort ∧
      (∀ h m1, sa_create_outcome dm k m 0 v ≠ Except.ok (h, m1)) ∧
      (sa_create_outcome dm k m malloc v).toOption = sa_create dm k m malloc v) ∧
    (sa_ref_create_outcome dm mp 0 p = Except.error Failure.nullWrite ∧
      sa_ref_create_outcome dm mp 0 p ≠ Except.error Failure.abort ∧
      (∀ h m1, sa_ref_create_outcome dm mp 0 p ≠ Except.ok (h, m1)) ∧
      (sa_ref_create_outcome dm mp malloc p).toOption = sa_ref_create dm mp malloc p) := by
  have h1 : sa_create_outcome dm k m 0 v = Except.error Failure.nullWrite := rfl
  have h2 : sa_ref_create_outcome dm mp 0 p = Except.error Failure.nullWrite := rfl
  refine ⟨⟨h1, ?_, ?_, sa_create_outcome_toOption dm k m malloc v⟩,
    ⟨h2, ?_, ?_, sa_ref_create_outcome_toOption dm mp malloc p⟩⟩
  · rw [h1]; intro e; cases e
  · intro h m1; rw [h1]; intro e; cases e
  · rw [h2]; intro e; cases e
  · intro h m1; rw [h2]; intro e; cases e

/-- C12 fails as stated: `sa_int32_create(5)` on a failed allocation neither returns
the null handle with the memory untouched nor ends by `abort`; it ends in the store
of `5` through the null pointer. The same for `sa_ref_create`. -/
theorem create_on_failed_malloc_writes_through_null :
    ¬ (sa_create_outcome DataModel.LP64 Kind.int32 Memory.empty 0 5
          = Except.ok (0, Memory.empty) ∨
        sa_create_outcome DataModel.LP64 Kind.int32 Memory.empty 0 5
          = Except.error Failure.abort) ∧
    sa_create_outcome DataModel.LP64 Kind.int32 Memory.empty 0 5
      = Except.error Failure.nullWrite ∧
    ¬ (sa_ref_create_outcome DataModel.LP64 Memory.empty 0 4096
          = Except.ok (0, Memory.empty) ∨
        sa_ref_create_outcome DataModel.LP64 Memory.empty 0 4096
          = Except.error Failure.abort) ∧
    sa_ref_create_outcome DataModel.LP64 Memory.empty 0 4096
      = Except.error Failure.nullWrite := by
  have h1 : sa_create_outcome DataModel.LP64 Kind.int32 Memory.empty 0 5
      = Except.error Failure.nullWrite := rfl
  have h2 : sa_ref_create_outcome DataModel.LP64 Memory.empty 0 4096
      = Except.error Failure.nullWrite := rfl
  refine ⟨?_, h1, ?_, h2⟩
  · rw [h1]; rintro (e | e) <;> cases e
  · rw [h2]; rintro (e | e) <;> cases e

/-! ## Wrap-around of add and sub -/

theorem Val.add_sub_cancel {dm : DataModel} {k : Kind} (c x : Val dm k)
    (hk : k ≠ Kind.bool) : Val.sub (Val.add c x) x = c := by
  simp only [Val.add, Val.sub, hk, if_false]
  exact add_sub_cancel_right c x

/-- The integer a pattern stands for lies in the range of the kind's `raw_type`. -/
theorem Val.toInt_range {dm : DataModel} {k : Kind} (v : Val dm k) :
    (k.isSigned = true →
      -(2 : Int) ^ (k.bits dm - 1) ≤ v.toInt ∧ v.toInt < 2 ^ (k.bits dm - 1)) ∧
    (k.isSigned = false → 0 ≤ v.toInt ∧ v.toInt < 2 ^ k.bits dm) := by
  have hlt : ((v.val : Nat) : Int) < 2 ^ k.bits dm := by exact_mod_cast v.isLt
  have h0 : (0 : Int) ≤ (v.val : Int) := Int.natCast_nonneg _
  have hpow : (2 : Int) ^ k.bits dm = 2 * 2 ^ (k.bits dm - 1) := by
    have hp := Kind.bits_pos k dm
    obtain ⟨n, hn⟩ : ∃ n, k.bits dm = n + 1 := ⟨k.bits dm - 1, by omega⟩
    rw [hn, pow_succ]; simp; ring
  constructor
  · intro hs
    unfold Val.toInt
    split
    · rename_i hc
      have h1 : ((2 ^ (k.bits dm - 1) : Nat) : Int) ≤ (v.val : Int) := by exact_mod_cast hc.2
      push_cast at h1
      constructor <;> omega
    · rename_i hc
      have h1 : ¬ 2 ^ (k.bits dm - 1) ≤ v.val := fun h => hc ⟨hs, h⟩
      have h2 : ((v.val : Nat) : Int) < ((2 ^ (k.bits dm - 1) : Nat) : Int) := by
        exact_mod_cast Nat.lt_of_not_le h1
      push_cast at h2
      constructor <;> omega
  · intro hs
    unfold Val.toInt
    simp [hs, h0, hlt]

/-- C16: on a live cell of an integer kind holding `c`, for every operand `x`,
`add(h, x)` followed by `sub(h, x)` leaves the cell holding `c`; both calls return a
result (no trap), and the `sub` returns the sum wrapped to the kind's width: its bit
pattern is `c + x` modulo `2 ^ bits`, and the integer it stands for is congruent to
the sum of the integers modulo `2 ^ bits` and lies in the kind's range, the two's
complement range for a signed kind. -/
theorem add_then_sub_restores (dm : DataModel) (k : Kind) (m : Memory (Val dm k))
    (ref : Nat) (c x : Val dm k) (h : m ref = some c) (hk : k ≠ Kind.bool) :
    ∃ m1 m2 s, sa_add dm k m ref x = some (c, m1) ∧ sa_sub dm k m1 ref x = some (s, m2) ∧
      sa_load dm k m2 ref = some (c, m2) ∧
      s.val = (c.val + x.val) % 2 ^ k.bits dm ∧
      s.toInt % 2 ^ k.bits dm = (c.toInt + x.toInt) % 2 ^ k.bits dm ∧
      (k.isSigned = true →
        -(2 : Int) ^ (k.bits dm - 1) ≤ s.toInt ∧ s.toInt < 2 ^ (k.bits dm - 1)) ∧
      (k.isSigned = false → 0 ≤ s.toInt ∧ s.toInt < 2 ^ k.bits dm) := by
  refine ⟨m.write ref (Val.add c x), (m.write ref (Val.add c x)).write ref c, Val.add c x,
    ?_, ?_, ?_, Val.add_val c x hk, ?_, (Val.toInt_range _).1, (Val.toInt_range _).2⟩
  · exact sa_fetch_live dm k Action.add m ref x c h
  · have hs := sa_fetch_live dm k Action.sub (m.write ref (Val.add c x)) ref x (Val.add c x)
      (Memory.write_same m ref _)
    simp only [Action.apply, Val.add_sub_cancel c x hk] at hs
    exact hs
  · exact sa_load_live dm k _ ref c (Memory.write_same _ ref c)
  · rw [Val.toInt_emod, Val.add_val c x hk, Int.add_emod, Val.toInt_emod, Val.toInt_emod]
    push_cast
    rfl

/-- C16 at a concrete input: an `Int8` cell holding `127`; adding `1` and then
subtracting `1` leaves `127`, and the `sub` returns the pattern `128`, which stands
for `-128`. -/
theorem add_then_sub_restores_witness :
    (Memory.empty.write 16 (127 : Val DataModel.LP64 Kind.int8)) 16 = some 127 ∧
    Kind.int8 ≠ Kind.bool ∧
    ∃ m1 m2 s, sa_add DataModel.LP64 Kind.int8 (Memory.empty.write 16 127) 16 1
        = some (127, m1) ∧
      sa_sub DataModel.LP64 Kind.int8 m1 16 1 = some (s, m2) ∧
      sa_load DataModel.LP64 Kind.int8 m2 16 = some (127, m2) ∧
      s.val = 128 ∧ s.toInt = -128 := by
  refine ⟨rfl, by decide, ?_⟩
  obtain ⟨m1, m2, s, h1, h2, h3, h4, _⟩ :=
    add_then_sub_restores DataModel.LP64 Kind.int8 (Memory.empty.write 16 127) 16 127 1 rfl
      (by decide)
  have hs : s = 128 := Fin.ext h4
  subst hs
  exact ⟨m1, m2, 128, h1, h2, h3, rfl, by decide⟩

/-! ## Concurrent increment -/

theorem schedule_length_eq_sum (n : Nat) (schedule : List Nat) (h : ∀ t ∈ schedule, t < n) :
    schedule.length = ∑ t in Finset.range n, schedule.count t := by
  induction schedule with
  | nil => simp
  | cons a rest ih =>
    have ha : a < n := h a (List.mem_cons_self a rest)
    have hrest : ∀ t ∈ rest, t < n := fun t ht => h t (List.mem_cons_of_mem a ht)
    simp only [List.length_cons, List.count_cons, Finset.sum_add_distrib, ← ih hrest]
    simp [Finset.sum_ite_eq, ha]

theorem IsInterleaving.length {n count : Nat} {schedule : List Nat}
    (h : IsInterleaving n count schedule) : schedule.length = n * count := by
  rw [schedule_length_eq_sum n schedule h.1,
    Finset.sum_congr rfl (fun t ht => h.2 t (Finset.mem_range.mp ht))]
  simp

/-- Two threads that each add one by a load followed by a store, on a cell holding
`0`: when both load before either stores, both store `1`, and the cell ends at `1`
with both threads finished. One update is lost; with `sa_<kind>_add` none is
(`Machine.run_interleaving`). -/
theorem load_then_store_loses_an_update :
    (Machine.run 16 [0, 1, 0, 1]
        ⟨Memory.empty.write 16 0,
          List.replicate 2 (loadStoreIncrementer DataModel.LP64 Kind.int32 1)⟩).map
      (fun f => (f.memory 16, f.threads))
      = some (some 1, [⟨[], some 0⟩, ⟨[], some 0⟩]) := by
  decide

end AtomicsCore
